import Mathlib

set_option maxRecDepth 40000

/-!
# Shallow embedding of the multibagger scoring and synthesis pipeline

This file embeds the core scoring logic of the stock-multibagger-engine
repository in Lean 4 and proves (or refutes) the frozen specification
claims about it.

Embedded components, translated from the Python source:

* `multibagger_system/agents/fundamental_agent.py` — the fundamental scorer
  (`FundamentalAgent.analyze` and its helper analyses and score tables);
* `multibagger_system/agents/technical_agent.py` — the base-formation,
  breakout, stage and risk/reward logic of the technical scorer;
* `multibagger_system/agents/supervisor_agent.py` — weighted synthesis,
  bucketing, sorting and the analysis summary.

Modelling conventions:

* Python floats are modelled as exact rationals (`ℚ`).  The analyses only
  ever compare derived quantities against fixed thresholds far from the
  double-precision error scale, so exact-rational arithmetic is faithful to
  the branching behaviour of the source.
* Python dicts are insertion-ordered association lists (`PyDict`); a missing
  key corresponds to `Option.none` of the relevant field, mirroring
  `dict.get(key, default)` call sites.
* Exceptions are modelled with `Except PyErr`; each Python
  `try/except → default` block becomes a total function collapsing the
  `Except` to the documented default value.
* Network-dependent behaviour (the AI enrichment providers, the yfinance
  price fetch) is modelled as an explicit input: the enrichment outcome is
  an `AiOutcome` value and the fetched price history is an argument.
-/

/-! ## Shared helpers: Python numeric and list primitives -/

/-- Runtime errors that the embedded Python code can raise.  `zeroDivision`
models `ZeroDivisionError`, `complexCompare` models the `TypeError` raised
when a complex number produced by a fractional power of a negative float is
compared with a real, `attrNonDict` models the `AttributeError` raised by
calling `.get` on a value that is not a dict. -/
inductive PyErr
  | zeroDivision
  | complexCompare
  | attrNonDict
deriving DecidableEq, Repr

/-- The message text attached to the modelled exception (used only to build
the `"Analysis error: ..."` strings of default responses). -/
def pyErrMessage : PyErr → String
  | .zeroDivision => "float division by zero"
  | .complexCompare => "comparison not supported between complex and float"
  | .attrNonDict => "object has no attribute get"

/-- Python `/` on numbers: raises `ZeroDivisionError` on a zero denominator. -/
def pyDiv (a b : ℚ) : Except PyErr ℚ :=
  if b = 0 then .error .zeroDivision else .ok (a / b)

/-- Python `min` on two floats (kernel-reducible, unlike the lattice
`min` of `ℚ`). -/
def pyMin (a b : ℚ) : ℚ := if a ≤ b then a else b

/-- Python `max` on two floats. -/
def pyMax (a b : ℚ) : ℚ := if a ≤ b then b else a

/-- Insertion-ordered Python dict with string keys. -/
abbrev PyDict (α : Type) := List (String × α)

/-- `numpy.mean` of a nonempty list (all call sites guard nonemptiness). -/
def meanQ (l : List ℚ) : ℚ := l.sum / l.length

/-- Python slice `l[-n:]` (and pandas `.tail(n)`): the last `n` elements,
or the whole list when it is shorter. -/
def pyTail (n : ℕ) (l : List ℚ) : List ℚ := l.drop (l.length - n)

/-- Python negative indexing `l[-k]` on lists of rationals; all call sites
guard that the index is in range. -/
def negGet (l : List ℚ) (k : ℕ) : ℚ := l.getD (l.length - k) 0

/-- Round half to even on rationals, modelling CPython's `round` and the
`:.Nf` format directive (up to double-representation error, which never
affects a comparison made by this code). -/
def rndHalfEven (x : ℚ) : ℤ :=
  let f : ℤ := x.num / (x.den : ℤ)
  let frac : ℚ := x - f
  if 1/2 < frac then f + 1
  else if frac < 1/2 then f
  else if f % 2 = 0 then f else f + 1

/-- Python `round(x, 2)`. -/
def pyRound2 (x : ℚ) : ℚ := (rndHalfEven (x * 100) : ℚ) / 100

/-- Python `round(x, 3)`. -/
def pyRound3 (x : ℚ) : ℚ := (rndHalfEven (x * 1000) : ℚ) / 1000

/-- Python `f"{x:.1f}"`. -/
def fmtF1 (x : ℚ) : String :=
  let n := rndHalfEven (x * 10)
  let sign := if n < 0 then "-" else ""
  sign ++ toString (n.natAbs / 10) ++ "." ++ toString (n.natAbs % 10)

/-- Python `f"{x:.0f}"`. -/
def fmtF0 (x : ℚ) : String := toString (rndHalfEven x)

/-- Does `needle` occur as a contiguous subsequence of `hay`? -/
def containsSeq (needle : List Char) : List Char → Bool
  | [] => needle.isEmpty
  | c :: t => needle.isPrefixOf (c :: t) || containsSeq needle t

/-- Python substring test `needle in hay`, on code-point sequences. -/
def pyInStr (needle hay : String) : Bool := containsSeq needle.data hay.data

/-- Python `str.upper()` (the symbols involved are ASCII tickers). -/
def pyUpper (s : String) : String := ⟨s.data.map Char.toUpper⟩

/-- Python `str.lower()`. -/
def pyLower (s : String) : String := ⟨s.data.map Char.toLower⟩

/-- Ascending comparison of dict keys (Python string `<` is lexicographic on
code points), used as the `key=lambda x: x[0]` sort order. -/
def dateLe {α : Type} (p q : String × α) : Prop := p.1.data ≤ q.1.data

instance {α : Type} : DecidableRel (@dateLe α) := fun p q =>
  inferInstanceAs (Decidable (p.1.data ≤ q.1.data))

/-- Bit length of a natural number by structural fuel (the fuel argument
only bounds the recursion; `bitLenAux n n` computes `⌊log2 n⌋ + 1` for
`2 ≤ n`). -/
def bitLenAux : ℕ → ℕ → ℕ
  | 0, _ => 0
  | fuel + 1, n => if n ≤ 1 then 0 else bitLenAux fuel (n / 2) + 1

def bitLen (n : ℕ) : ℕ := bitLenAux n n

/-- Binary-search step for the integer `n`-th root (structural fuel). -/
def irootAux (n N : ℕ) : ℕ → ℕ → ℕ → ℕ
  | 0, lo, _ => lo
  | fuel + 1, lo, hi =>
    if hi ≤ lo + 1 then lo
    else
      let mid := (lo + hi) / 2
      if mid ^ n ≤ N then irootAux n N fuel mid hi else irootAux n N fuel lo mid

/-- Integer `n`-th root: the largest `m` with `m ^ n ≤ N`. -/
def iroot (n N : ℕ) : ℕ :=
  if n = 0 then 0 else irootAux n N (bitLen N + 3) 0 (2 ^ (bitLen N / n + 2))

/-- Rational model of the Python float power `x ** (1 / n)` as used by the
CAGR formulas.  For nonnegative `x = a / b` it returns the `n`-th root of
`a * b ^ (n-1)` (so of `x` itself, up to the fixed scale `10 ^ 6`),
computed by integer root extraction; the result is exact whenever `x` is
the `n`-th power of a rational with this scale, which covers every concrete
evaluation in this file.  Negative bases never reach this function: the
source produces a complex number there and the subsequent comparison raises
(`PyErr.complexCompare`). -/
def ratRoot (x : ℚ) (n : ℕ) : ℚ :=
  if x ≤ 0 ∨ n = 0 then 0
  else
    let a := x.num.toNat
    let b := x.den
    (iroot n (a * b ^ (n - 1) * (10 ^ 6) ^ n) : ℚ) / (b * 10 ^ 6)

/-! ## Fundamental agent: data model

Field names follow the statement keys read by
`FundamentalAgent` (`'Total Revenue'`, `'Net Income'`, `'Operating Income'`,
`'Total Assets'`, `'Stockholders Equity'`, `'Total Debt'`,
`'Operating Cash Flow'`, `'Capital Expenditures'`).  A `none` dict value
models a statement entry that is not a dict (the code checks
`isinstance(data, dict)` in some analyses and raises `AttributeError` in
others). -/

structure StmtFields where
  totalRevenue : Option ℚ
  netIncome : Option ℚ
  operatingIncome : Option ℚ
deriving DecidableEq, Repr

structure BalanceFields where
  totalAssets : Option ℚ
  stockholdersEquity : Option ℚ
  totalDebt : Option ℚ
deriving DecidableEq, Repr

structure CashflowFields where
  operatingCashFlow : Option ℚ
  capitalExpenditures : Option ℚ
deriving DecidableEq, Repr

/-- The `financial_data` argument of `FundamentalAgent.analyze`.  The
`info` sub-dict is consumed only by the network prompt builder and is not
modelled. -/
structure FinancialData where
  symbol : Option String
  financials : PyDict (Option StmtFields)
  balance_sheet : PyDict (Option BalanceFields)
  cashflow : PyDict (Option CashflowFields)
deriving DecidableEq, Repr

/-- Result dict of `_analyze_revenue_growth`.  The except-path default is
`{'cagr_5y': 0, 'improving_trend': False, 'declining_trend': False}`;
`latest_revenue` is only present on success and is never read back, so the
default stores `0`. -/
structure RevenueAnalysis where
  cagr_5y : ℚ
  improving_trend : Bool
  declining_trend : Bool
  latest_revenue : ℚ
deriving DecidableEq, Repr

def defaultRevenueAnalysis : RevenueAnalysis :=
  { cagr_5y := 0, improving_trend := false, declining_trend := false, latest_revenue := 0 }

/-- Result dict of `_analyze_profitability`.  `pat_cagr_5y = none` models
the complex number produced when the PAT ratio is negative; comparing it
(in `_score_profitability`) raises. -/
structure ProfitabilityAnalysis where
  pat_cagr_5y : Option ℚ
  margin_expansion : Bool
  margin_compression : Bool
  latest_margin : ℚ
deriving DecidableEq, Repr

def defaultProfitabilityAnalysis : ProfitabilityAnalysis :=
  { pat_cagr_5y := some 0, margin_expansion := false, margin_compression := false,
    latest_margin := 0 }

structure EfficiencyAnalysis where
  latest_roce : ℚ
  latest_roe : ℚ
  roce_improving : Bool
  roe_improving : Bool
deriving DecidableEq, Repr

def defaultEfficiencyAnalysis : EfficiencyAnalysis :=
  { latest_roce := 0, latest_roe := 0, roce_improving := false, roe_improving := false }

structure DebtAnalysis where
  debt_to_equity : ℚ
  debt_reducing : Bool
  high_debt_risk : Bool
deriving DecidableEq, Repr

def defaultDebtAnalysis : DebtAnalysis :=
  { debt_to_equity := 0, debt_reducing := false, high_debt_risk := false }

/-- The `ocf_to_pat` field models the dict key `'ocf_to_pat_ratio'`. -/
structure CashflowAnalysis where
  ocf_to_pat : ℚ
  strong_ocf : Bool
  poor_conversion : Bool
deriving DecidableEq, Repr

def defaultCashflowAnalysis : CashflowAnalysis :=
  { ocf_to_pat := 0, strong_ocf := false, poor_conversion := false }

structure CapitalAllocationAnalysis where
  avg_capex : ℚ
  capex_trend : String
deriving DecidableEq, Repr

/-! ## Fundamental agent: metric extractors -/

/-- `_analyze_revenue_growth`, exception-raising core.  Collects
`'Total Revenue'` from dict periods, sorts by date key, computes the CAGR
and the trend flags.  Raises on a zero CAGR denominator and on comparison
of the complex power of a negative ratio, mirroring the source. -/
def analyzeRevenueGrowthCore (financials : PyDict (Option StmtFields)) :
    Except PyErr RevenueAnalysis :=
  let pairs := financials.filterMap fun p =>
    p.2.bind fun s => s.totalRevenue.map fun r => (p.1, r)
  if pairs.length < 3 then .ok defaultRevenueAnalysis
  else
    let sorted := pairs.insertionSort dateLe
    let revenues := sorted.map (·.2)
    match (if 5 ≤ revenues.length then pyDiv (negGet revenues 1) (negGet revenues 5)
           else pyDiv (negGet revenues 1) (revenues.headD 0)) with
    | .error e => .error e
    | .ok base =>
      let k := if 5 ≤ revenues.length then 5 else revenues.length
      -- a negative base makes `cagr_5y` complex; any comparison with it raises
      let cagrC : Option ℚ := if base < 0 then none else some ((ratRoot base k - 1) * 100)
      match (if 6 ≤ revenues.length then
               Except.ok (decide (meanQ (pyTail 3 revenues) >
                 meanQ ((revenues.drop (revenues.length - 6)).take 3) * (11/10)))
             else
               match cagrC with
               | none => Except.error PyErr.complexCompare
               | some c => Except.ok (decide (c > 10))) with
      | .error e => .error e
      | .ok improving =>
        match cagrC with
        | none => .error .complexCompare
        | some cagr =>
          let declining := decide (cagr < -5) ||
            (decide (3 ≤ revenues.length) && decide (negGet revenues 1 < negGet revenues 3 * (9/10)))
          .ok { cagr_5y := cagr, improving_trend := improving, declining_trend := declining,
                latest_revenue := negGet revenues 1 }

/-- `_analyze_revenue_growth` with its `try/except → default` collapse. -/
def analyzeRevenueGrowth (financials : PyDict (Option StmtFields)) : RevenueAnalysis :=
  match analyzeRevenueGrowthCore financials with
  | .ok r => r
  | .error _ => defaultRevenueAnalysis

/-- `_analyze_profitability`: PAT CAGR (guarded to `0` unless five periods
with a positive base are present), operating-margin expansion/compression.
Total: every division is guarded by the source, and the possibly-complex
PAT CAGR is stored, not compared. -/
def analyzeProfitability (financials : PyDict (Option StmtFields)) : ProfitabilityAnalysis :=
  let tuples := financials.filterMap fun p =>
    p.2.map fun s => (p.1, s.netIncome.getD 0, s.totalRevenue.getD 1, s.operatingIncome.getD 0)
  if tuples.length < 3 then defaultProfitabilityAnalysis
  else
    let sorted := tuples.insertionSort dateLe
    let netIncomes := sorted.map (·.2.1)
    let revenues := sorted.map (·.2.2.1)
    let operatingIncomes := sorted.map (·.2.2.2)
    let patCagr : Option ℚ :=
      if 5 ≤ netIncomes.length ∧ 0 < negGet netIncomes 5 then
        let base := negGet netIncomes 1 / negGet netIncomes 5
        if base < 0 then none else some ((ratRoot base 5 - 1) * 100)
      else some 0
    let operatingMargins :=
      (List.zip operatingIncomes revenues).filterMap fun p =>
        if 0 < p.2 then some (p.1 / p.2 * 100) else none
    if 3 ≤ operatingMargins.length then
      let recentMargin := meanQ (pyTail 2 operatingMargins)
      let olderMargin := meanQ (operatingMargins.take 2)
      { pat_cagr_5y := patCagr,
        margin_expansion := decide (recentMargin > olderMargin + 1),
        margin_compression := decide (recentMargin < olderMargin - 1),
        latest_margin := negGet operatingMargins 1 }
    else
      { pat_cagr_5y := patCagr, margin_expansion := false, margin_compression := false,
        latest_margin := if operatingMargins.isEmpty then 0 else negGet operatingMargins 1 }

/-- `_analyze_efficiency`, exception-raising core: for dates present in both
`financials` and `balance_sheet`, collect net income / total assets /
equity where both denominators are positive; `.get` on a non-dict entry
raises. -/
def analyzeEfficiencyCore (financials : PyDict (Option StmtFields))
    (balance : PyDict (Option BalanceFields)) : Except PyErr EfficiencyAnalysis := do
  let step : List (ℚ × ℚ × ℚ) → String × Option StmtFields → Except PyErr (List (ℚ × ℚ × ℚ)) :=
    fun acc p =>
      match balance.lookup p.1 with
      | none => pure acc
      | some bv => do
        let s ← match p.2 with | none => .error .attrNonDict | some s => pure s
        let b ← match bv with | none => .error .attrNonDict | some b => pure b
        let ni : ℚ := s.netIncome.getD 0
        let ta : ℚ := b.totalAssets.getD 0
        let sheq : ℚ := b.stockholdersEquity.getD 0
        pure (if 0 < ta ∧ 0 < sheq then acc ++ [(ni, ta, sheq)] else acc)
  let rows ← financials.foldlM step []
  if rows.length < 2 then return defaultEfficiencyAnalysis
  let roceValues := rows.map fun r => r.1 / r.2.1 * 100
  let roeValues := rows.map fun r => r.1 / r.2.2 * 100
  return { latest_roce := negGet roceValues 1,
           latest_roe := negGet roeValues 1,
           roce_improving := decide (3 ≤ roceValues.length) && decide (negGet roceValues 1 > negGet roceValues 3),
           roe_improving := decide (3 ≤ roeValues.length) && decide (negGet roeValues 1 > negGet roeValues 3) }

/-- `_analyze_efficiency` with its `try/except → default` collapse. -/
def analyzeEfficiency (financials : PyDict (Option StmtFields))
    (balance : PyDict (Option BalanceFields)) : EfficiencyAnalysis :=
  match analyzeEfficiencyCore financials balance with
  | .ok r => r
  | .error _ => defaultEfficiencyAnalysis

/-- `_analyze_debt_quality`, exception-raising core.  Non-dict periods are
skipped by the `isinstance` check; a missing `'Stockholders Equity'` key
defaults to `1`; ratios are taken only where equity is positive, so the
division (modelled by `pyDiv`) can in fact never raise — which is exactly
the content of the claim about this function. -/
def analyzeDebtQualityCore (balance : PyDict (Option BalanceFields)) :
    Except PyErr DebtAnalysis :=
  let pairs := balance.filterMap fun p =>
    p.2.map fun b => (b.totalDebt.getD 0, b.stockholdersEquity.getD 1)
  if pairs.length < 2 then .ok defaultDebtAnalysis
  else
    match (pairs.filter fun p => decide (0 < p.2)).mapM (fun p => pyDiv p.1 p.2) with
    | .error e => .error e
    | .ok deRatios =>
      let latest := if deRatios.isEmpty then 0 else negGet deRatios 1
      .ok { debt_to_equity := latest,
            debt_reducing := decide (3 ≤ deRatios.length) &&
              decide (negGet deRatios 1 < negGet deRatios 3),
            high_debt_risk := decide (latest > 1) }

/-- `_analyze_debt_quality` with its `try/except → default` collapse. -/
def analyzeDebtQuality (balance : PyDict (Option BalanceFields)) : DebtAnalysis :=
  match analyzeDebtQualityCore balance with
  | .ok r => r
  | .error _ => defaultDebtAnalysis

/-- `_analyze_cashflow_quality`, exception-raising core: for dates of the
cashflow dict also present in `financials`, the OCF/PAT ratio of the latest
matched period (`0` when net income is `0`); `.get` on a non-dict raises. -/
def analyzeCashflowQualityCore (cashflow : PyDict (Option CashflowFields))
    (financials : PyDict (Option StmtFields)) : Except PyErr CashflowAnalysis := do
  let step : List (ℚ × ℚ) → String × Option CashflowFields → Except PyErr (List (ℚ × ℚ)) :=
    fun acc p =>
      match financials.lookup p.1 with
      | none => pure acc
      | some fv => do
        let c ← match p.2 with | none => .error .attrNonDict | some c => pure c
        let f ← match fv with | none => .error .attrNonDict | some f => pure f
        pure (acc ++ [(c.operatingCashFlow.getD 0, f.netIncome.getD 0)])
  let rows ← cashflow.foldlM step []
  if rows.length < 2 then return defaultCashflowAnalysis
  let ocfRatios := rows.map fun p => if p.2 ≠ 0 then p.1 / p.2 else 0
  let latest := if ocfRatios.isEmpty then 0 else negGet ocfRatios 1
  return { ocf_to_pat := latest,
           strong_ocf := decide (latest > 12/10),
           poor_conversion := decide (latest < 8/10) }

/-- `_analyze_cashflow_quality` with its `try/except → default` collapse. -/
def analyzeCashflowQuality (cashflow : PyDict (Option CashflowFields))
    (financials : PyDict (Option StmtFields)) : CashflowAnalysis :=
  match analyzeCashflowQualityCore cashflow financials with
  | .ok r => r
  | .error _ => defaultCashflowAnalysis

/-- `_analyze_capital_allocation` (computed by `analyze` but its result is
never used for the score or the output). -/
def analyzeCapitalAllocation (cashflow : PyDict (Option CashflowFields)) :
    CapitalAllocationAnalysis :=
  let capexValues := cashflow.filterMap fun p =>
    p.2.map fun c => |c.capitalExpenditures.getD 0|
  { avg_capex := if capexValues.isEmpty then 0 else meanQ capexValues,
    capex_trend :=
      if 3 ≤ capexValues.length ∧ negGet capexValues 1 > negGet capexValues 3 then "increasing"
      else "stable" }

/-! ## Fundamental agent: score tables -/

/-- `_score_revenue_growth` (0–2 points). -/
def scoreRevenueGrowth (a : RevenueAnalysis) : ℚ :=
  if a.declining_trend then 0
  else if a.cagr_5y > 15 ∧ a.improving_trend then 2
  else if a.cagr_5y > 10 ∨ a.improving_trend then 3/2
  else if a.cagr_5y > 5 then 1
  else 1/2

/-- `_score_profitability` (0–2 points).  Comparing a complex
`pat_cagr_5y` raises; the `margin_compression` branch returns before any
comparison, mirroring Python's evaluation order. -/
def scoreProfitability (a : ProfitabilityAnalysis) : Except PyErr ℚ :=
  if a.margin_compression then .ok 0
  else
    match a.pat_cagr_5y with
    | none => .error .complexCompare
    | some pat =>
      .ok (if pat > 20 ∧ a.margin_expansion then 2
           else if pat > 10 ∨ a.margin_expansion then 3/2
           else if pat > 5 then 1
           else 1/2)

/-- `_score_efficiency` (0–2 points). -/
def scoreEfficiency (a : EfficiencyAnalysis) : ℚ :=
  let base : ℚ :=
    if a.latest_roce > 20 ∨ a.latest_roe > 20 then 1
    else if a.latest_roce > 15 ∨ a.latest_roe > 15 then 1/2
    else 0
  let score := base + (if a.roce_improving ∨ a.roe_improving then 1 else 0)
  pyMin 2 score

/-- `_score_debt_quality` (0–2 points). -/
def scoreDebtQuality (a : DebtAnalysis) : ℚ :=
  if a.high_debt_risk then 0
  else if a.debt_to_equity < 3/10 ∧ a.debt_reducing then 2
  else if a.debt_to_equity < 1/2 ∨ a.debt_reducing then 3/2
  else if a.debt_to_equity < 8/10 then 1
  else 1/2

/-- `_score_cashflow_quality` (0–2 points). -/
def scoreCashflowQuality (a : CashflowAnalysis) : ℚ :=
  if a.poor_conversion then 0
  else if a.strong_ocf ∧ a.ocf_to_pat > 3/2 then 2
  else if a.strong_ocf ∨ a.ocf_to_pat > 1 then 3/2
  else if a.ocf_to_pat > 8/10 then 1
  else 1/2

/-- `_calculate_inflection_bonus` (0–1 points). -/
def calculateInflectionBonus (rev : RevenueAnalysis) (prof : ProfitabilityAnalysis)
    (eff : EfficiencyAnalysis) : ℚ :=
  (if rev.improving_trend ∧ prof.margin_expansion then 1/2 else 0) +
    (if eff.roce_improving ∧ eff.roe_improving then 1/2 else 0)

/-! ## Fundamental agent: AI enrichment model

The provider calls (`_call_groq`, …) are network requests; their outcome is
an explicit input.  `disabled` models `ai_enabled = False` (no provider
keys configured, `ai_insights = {}`); `fallbackLocal` models the case where
providers are configured but every call fails, so `_get_ai_insights` falls
through to `_create_fallback_ai_analysis`; `providerResult` models a
successful (truthy) provider response with arbitrary parsed content. -/

/-- The insights dict consumed by `analyze`; fields are read with
`.get(key, default)`, so arbitrary provider JSON is modelled by arbitrary
field values. -/
structure AiInsights where
  strengths : List String
  risks : List String
  confidence : ℚ
  ai_score_adjustment : ℚ
  reasoning : String
  ai_provider : String
deriving DecidableEq, Repr

inductive AiOutcome
  | disabled
  | fallbackLocal (providers : List String)
  | providerResult (providers : List String) (name : String) (ins : AiInsights)
deriving DecidableEq, Repr

/-- `list(self.ai_providers.keys())`. -/
def AiOutcome.providersAvailable : AiOutcome → List String
  | .disabled => []
  | .fallbackLocal ps => ps
  | .providerResult ps _ _ => ps

/-- `self.ai_enabled`. -/
def AiOutcome.enabled : AiOutcome → Bool
  | .disabled => false
  | _ => true

/-- `_create_fallback_ai_analysis`: the local, rule-based enrichment used
when every provider fails.  Its score adjustment is clamped to
`[-0.5, 0.5]` and its confidence to `[0.3, 0.8]`. -/
def createFallbackAiAnalysis (symbol : String) (rev : RevenueAnalysis)
    (prof : ProfitabilityAnalysis) : AiInsights :=
  let cagr := rev.cagr_5y
  let s1 : List String × ℚ × ℚ :=
    if cagr > 15 then (["Strong revenue growth: " ++ fmtF1 cagr ++ "% CAGR"], 1/10, 3/10)
    else if cagr > 10 then (["Decent revenue growth: " ++ fmtF1 cagr ++ "% CAGR"], 1/20, 1/10)
    else ([], 0, 0)
  let r1 : List String × ℚ × ℚ :=
    if cagr > 15 ∨ cagr > 10 then ([], 0, 0)
    else if cagr < 0 then (["Declining revenue trend"], -(1/10), -(2/10))
    else ([], 0, 0)
  let s2 : List String × ℚ × ℚ :=
    if prof.margin_expansion then (["Operating margin expansion"], 1/10, 2/10) else ([], 0, 0)
  let r2 : List String × ℚ × ℚ :=
    if ¬prof.margin_expansion ∧ prof.margin_compression then
      (["Margin compression pressure"], -(1/10), -(2/10))
    else ([], 0, 0)
  let s3 : List String × ℚ × ℚ :=
    if rev.improving_trend then (["Recent revenue acceleration"], 1/10, 2/10) else ([], 0, 0)
  let upper := pyUpper symbol
  let sector : List String × List String :=
    if pyInStr ".NS" symbol then
      if ["TCS", "INFY", "WIPRO", "TECH"].any (fun t => pyInStr t upper) then
        (["Technology sector tailwinds"], [])
      else if ["HDFC", "ICICI", "SBI", "BANK"].any (fun t => pyInStr t upper) then
        (["Banking sector fundamentals"], ["Interest rate sensitivity"])
      else if ["SUN", "CIPLA", "REDDY", "PHARMA"].any (fun t => pyInStr t upper) then
        (["Healthcare sector growth"], ["Regulatory changes"])
      else ([], [])
    else ([], [])
  let strengths0 := s1.1 ++ s2.1 ++ s3.1 ++ sector.1
  let risks0 := r1.1 ++ r2.1 ++ sector.2
  let strengths := if strengths0.isEmpty then
      ["Established market presence", "Financial data available"] else strengths0
  let risks := if risks0.isEmpty then ["Market volatility", "Economic cycles"] else risks0
  let confidence0 := 1/2 + s1.2.1 + r1.2.1 + s2.2.1 + r2.2.1 + s3.2.1 +
    (if sector.1 = ["Technology sector tailwinds"] then 1/20 else 0)
  let adj0 := s1.2.2 + r1.2.2 + s2.2.2 + r2.2.2 + s3.2.2
  { strengths := strengths.take 3,
    risks := risks.take 2,
    confidence := pyMax (3/10) (pyMin (8/10) confidence0),
    ai_score_adjustment := pyMax (-(1/2)) (pyMin (1/2) adj0),
    reasoning := "Fallback analysis for " ++ symbol ++ " - AI providers unavailable",
    ai_provider := "fallback_analysis" }

/-- `_get_ai_insights`: `none` models the empty (falsy) dict returned when
AI is disabled; a successful provider result has `'ai_provider'` set to the
provider's name. -/
def getAiInsights (ai : AiOutcome) (symbol : String) (rev : RevenueAnalysis)
    (prof : ProfitabilityAnalysis) : Option AiInsights :=
  match ai with
  | .disabled => none
  | .fallbackLocal _ => some (createFallbackAiAnalysis symbol rev prof)
  | .providerResult _ name ins => some { ins with ai_provider := name }

/-! ## Fundamental agent: `analyze` -/

/-- The `detailed_analysis` sub-dict of the `analyze` output.
`pat_cagr_5y = none` (the complex value) cannot actually occur here, since
scoring would have raised first; `ai_confidence = none` renders the
`'N/A'` placeholder. -/
structure FundDetailed where
  revenue_cagr_5y : ℚ
  pat_cagr_5y : Option ℚ
  latest_roce : ℚ
  latest_roe : ℚ
  debt_to_equity : ℚ
  ocf_to_pat : ℚ
  ai_enabled : Bool
  ai_providers_available : List String
  ai_provider_used : String
  ai_confidence : Option ℚ
deriving DecidableEq, Repr

/-- Output dict of `FundamentalAgent.analyze`.  `detailed_analysis = none`
models the empty dict of `_create_default_response`. -/
structure FundOutput where
  fundamental_score : ℚ
  key_improving_metrics : List String
  red_flags : List String
  detailed_analysis : Option FundDetailed
deriving DecidableEq, Repr

/-- `_create_default_response`. -/
def createDefaultResponse (reason : String) : FundOutput :=
  { fundamental_score := 0, key_improving_metrics := [], red_flags := [reason],
    detailed_analysis := none }

/-- `FundamentalAgent.analyze`, exception-raising core: the body of the
outer `try`.  The result of `_analyze_capital_allocation` is computed and
discarded, as in the source. -/
def fundamentalAnalyzeCore (ai : AiOutcome) (fd : FinancialData) :
    Except PyErr FundOutput :=
  if fd.financials.isEmpty then .ok (createDefaultResponse "Insufficient financial data")
  else
  let revenueAnalysis := analyzeRevenueGrowth fd.financials
  let profitabilityAnalysis := analyzeProfitability fd.financials
  let efficiencyAnalysis := analyzeEfficiency fd.financials fd.balance_sheet
  let debtAnalysis := analyzeDebtQuality fd.balance_sheet
  let cashflowAnalysis := analyzeCashflowQuality fd.cashflow fd.financials
  let _capitalAllocation := analyzeCapitalAllocation fd.cashflow
  let aiInsights := getAiInsights ai (fd.symbol.getD "Unknown") revenueAnalysis
    profitabilityAnalysis
  let revenueScore := scoreRevenueGrowth revenueAnalysis
  let m1 : List String := if revenueAnalysis.improving_trend then
      ["Revenue CAGR improving: " ++ fmtF1 revenueAnalysis.cagr_5y ++ "%"] else []
  let f1 : List String := if revenueAnalysis.declining_trend then
      ["Declining revenue trend"] else []
  match scoreProfitability profitabilityAnalysis with
  | .error e => .error e
  | .ok profitScore =>
  let m2 : List String := if profitabilityAnalysis.margin_expansion then
      ["Operating margin expanding: " ++ fmtF1 profitabilityAnalysis.latest_margin ++ "%"] else []
  let f2 : List String := if profitabilityAnalysis.margin_compression then
      ["Margin compression trend"] else []
  let efficiencyScore := scoreEfficiency efficiencyAnalysis
  let m3 : List String := if efficiencyAnalysis.roce_improving then
      ["ROCE improving: " ++ fmtF1 efficiencyAnalysis.latest_roce ++ "%"] else []
  let m4 : List String := if efficiencyAnalysis.roe_improving then
      ["ROE improving: " ++ fmtF1 efficiencyAnalysis.latest_roe ++ "%"] else []
  let debtScore := scoreDebtQuality debtAnalysis
  let m5 : List String := if debtAnalysis.debt_reducing then ["Debt reduction trend"] else []
  let f3 : List String := if debtAnalysis.high_debt_risk then ["High debt levels"] else []
  let cashflowScore := scoreCashflowQuality cashflowAnalysis
  let m6 : List String := if cashflowAnalysis.strong_ocf then
      ["Strong operating cash flow"] else []
  let f4 : List String := if cashflowAnalysis.poor_conversion then
      ["Poor cash conversion"] else []
  let aiStrengths := match aiInsights with | some ins => ins.strengths | none => []
  let aiRisks := match aiInsights with | some ins => ins.risks | none => []
  let improvingMetrics := m1 ++ m2 ++ m3 ++ m4 ++ m5 ++ m6 ++ aiStrengths
  let redFlags := f1 ++ f2 ++ f3 ++ f4 ++ aiRisks
  let scoreSum := revenueScore + profitScore + efficiencyScore + debtScore + cashflowScore
  let inflectionBonus := calculateInflectionBonus revenueAnalysis profitabilityAnalysis
    efficiencyAnalysis
  let aiBonus := match aiInsights with | some ins => ins.ai_score_adjustment | none => 0
  let finalScore := pyMin 10 (scoreSum + inflectionBonus + aiBonus)
  .ok { fundamental_score := pyRound2 finalScore,
           key_improving_metrics := improvingMetrics.take 5,
           red_flags := redFlags.take 3,
           detailed_analysis := some
             { revenue_cagr_5y := revenueAnalysis.cagr_5y,
               pat_cagr_5y := profitabilityAnalysis.pat_cagr_5y,
               latest_roce := efficiencyAnalysis.latest_roce,
               latest_roe := efficiencyAnalysis.latest_roe,
               debt_to_equity := debtAnalysis.debt_to_equity,
               ocf_to_pat := cashflowAnalysis.ocf_to_pat,
               ai_enabled := ai.enabled,
               ai_providers_available := ai.providersAvailable,
               ai_provider_used := match aiInsights with
                 | some ins => ins.ai_provider
                 | none => "None",
               ai_confidence := match aiInsights with
                 | some ins => some ins.confidence
                 | none => none } }

/-- `FundamentalAgent.analyze`: the outer `try/except` collapses any raised
error to `_create_default_response(f"Analysis error: {e}")`. -/
def fundamentalAnalyze (ai : AiOutcome) (fd : FinancialData) : FundOutput :=
  match fundamentalAnalyzeCore ai fd with
  | .ok o => o
  | .error e => createDefaultResponse ("Analysis error: " ++ pyErrMessage e)

/-- The `ai_score_adjustment` contribution read by `analyze`
(`ai_insights.get('ai_score_adjustment', 0) if ai_insights else 0`). -/
def aiBonusOf (ai : AiOutcome) (fd : FinancialData) : ℚ :=
  match getAiInsights ai (fd.symbol.getD "Unknown") (analyzeRevenueGrowth fd.financials)
      (analyzeProfitability fd.financials) with
  | some ins => ins.ai_score_adjustment
  | none => 0

/-! ## Technical agent

The 5-year daily price history is fetched over the network by
`_get_extended_price_data`; the embedding takes the fetched frame as the
`priceData` input.  The relative-strength and trend sub-analyses are not
modelled: the former compares against NIFTY data from a second network
fetch and the latter reads derived SMA indicator columns, and neither
feeds `technical_stage`, `risk_reward_ratio` or any other modelled output
field.  The volume sub-analysis is modelled from the `Volume` column. -/

/-- One daily bar of the price frame (`High`, `Low`, `Close`, `Volume`). -/
structure PriceBar where
  high : ℚ
  low : ℚ
  close : ℚ
  volume : ℚ
deriving DecidableEq, Repr, Inhabited

/-- The `technical_data` dict argument of `TechnicalAgent.analyze`
(only the keys the modelled sub-analyses read). -/
structure TechnicalData where
  current_price : Option ℚ
  support_level : Option ℚ
deriving DecidableEq, Repr

/-- Result dict of `_analyze_base_formation`. -/
structure BaseFormationAnalysis where
  base_duration_months : ℚ
  base_quality : String
deriving DecidableEq, Repr

/-- Result dict of `_analyze_breakout_patterns`. -/
structure BreakoutAnalysis where
  breakout_confirmed : Bool
  breakout_strength : String
  resistance_level : ℚ
  false_breakout : Bool
deriving DecidableEq, Repr

/-- Largest value of `f` over a list (call sites guard nonemptiness; the
empty case mirrors pandas' NaN only through the guards). -/
def maxOver (f : PriceBar → ℚ) : List PriceBar → ℚ
  | [] => 0
  | b :: t => t.foldl (fun a x => pyMax a (f x)) (f b)

/-- Smallest value of `f` over a list. -/
def minOver (f : PriceBar → ℚ) : List PriceBar → ℚ
  | [] => 0
  | b :: t => t.foldl (fun a x => pyMin a (f x)) (f b)

/-- pandas `.tail(n)` on the price frame. -/
def barsTail (n : ℕ) (bars : List PriceBar) : List PriceBar :=
  bars.drop (bars.length - n)

/-- The per-bar consolidation flag: the 252-bar rolling range compression
`(high_max - low_min) / low_min * 100 < 30`.  The first 251 bars have a NaN
rolling window in pandas and `NaN < 30` is `False`; a zero rolling low
gives `inf` (or `NaN`), for which the comparison is also `False`. -/
def consolidationFlag (bars : List PriceBar) (i : ℕ) : Bool :=
  if i + 1 < 252 then false
  else
    let window := (bars.take (i + 1)).drop (i + 1 - 252)
    let hi := maxOver (·.high) window
    let lo := minOver (·.low) window
    if lo = 0 then false else decide ((hi - lo) / lo * 100 < 30)

/-- The longest run of consecutive `true` flags (the
`current_streak`/`max_streak` loop). -/
def maxStreak (flags : List Bool) : ℕ :=
  (flags.foldl (fun p f => if f then (p.1 + 1, max p.2 (p.1 + 1)) else (0, p.2)) (0, 0)).2

/-- `_analyze_base_formation`: fewer than 252 bars yields the
`{'base_duration_months': 0, 'base_quality': 'POOR'}` default; otherwise the
longest consolidation streak is converted to months (`/ 21`) and tiered. -/
def analyzeBaseFormation (bars : List PriceBar) : BaseFormationAnalysis :=
  if bars.length < 252 then { base_duration_months := 0, base_quality := "POOR" }
  else
    let flags := (List.range bars.length).map (consolidationFlag bars)
    let months : ℚ := (maxStreak flags : ℚ) / 21
    { base_duration_months := months,
      base_quality :=
        if 36 ≤ months then "EXCELLENT"
        else if 24 ≤ months then "GOOD"
        else if 12 ≤ months then "FAIR"
        else "POOR" }

/-- `_analyze_breakout_patterns`: 52-week-high resistance, 2 % breakout
confirmation, strength tiers and the 10-day false-breakout guard. -/
def analyzeBreakoutPatterns (bars : List PriceBar) (td : TechnicalData) : BreakoutAnalysis :=
  if bars.isEmpty then
    { breakout_confirmed := false, breakout_strength := "WEAK",
      resistance_level := 0, false_breakout := false }
  else
    let currentPrice0 := td.current_price.getD 0
    let currentPrice := if currentPrice0 = 0 then (bars.getLastD default).close
      else currentPrice0
    let resistance := maxOver (·.high) (barsTail 252 bars)
    let breakout := decide (currentPrice > resistance * (102/100))
    let strength :=
      if breakout then
        let pct := (currentPrice - resistance) / resistance * 100
        if pct > 10 then "STRONG" else if pct > 5 then "MODERATE" else "WEAK"
      else "NO_BREAKOUT"
    let recent := (barsTail 10 bars).map (·.close)
    let falseBreakout := breakout && recent.any fun p => decide (p < resistance * (98/100))
    { breakout_confirmed := breakout && !falseBreakout,
      breakout_strength := strength,
      resistance_level := resistance,
      false_breakout := falseBreakout }

/-- Result dict of `_analyze_volume_patterns`. -/
structure VolumeAnalysis where
  volume_expansion : Bool
  volume_trend : String
deriving DecidableEq, Repr

/-- `_analyze_volume_patterns`: 3-month vs 1-year average expansion and the
21-day vs prior-21-day trend label. -/
def analyzeVolumePatterns (bars : List PriceBar) : VolumeAnalysis :=
  if bars.isEmpty then { volume_expansion := false, volume_trend := "FLAT" }
  else
    let vols := bars.map (·.volume)
    let avg3m := meanQ (pyTail 63 vols)
    let avg1y := meanQ (pyTail 252 vols)
    let recent := pyTail 21 vols
    let older := (pyTail 42 vols).take 21
    { volume_expansion := decide (avg3m > avg1y * (3/2)),
      volume_trend :=
        if meanQ recent > meanQ older * (12/10) then "INCREASING"
        else if meanQ recent < meanQ older * (8/10) then "DECREASING"
        else "FLAT" }

/-- `_determine_technical_stage`: `BREAKOUT` needs a confirmed breakout on a
`GOOD`/`EXCELLENT` base; more than 50 % extension above the breakout
resistance makes it `EXTENDED`; everything else is `BASE`. -/
def determineTechnicalStage (base : BaseFormationAnalysis) (breakout : BreakoutAnalysis)
    (bars : List PriceBar) : String :=
  if breakout.breakout_confirmed ∧ (base.base_quality = "GOOD" ∨ base.base_quality = "EXCELLENT") then
    if ¬bars.isEmpty then
      let currentPrice := (bars.getLastD default).close
      let resistance := breakout.resistance_level
      let extension := (currentPrice - resistance) / resistance * 100
      if extension > 50 then "EXTENDED" else "BREAKOUT"
    else "BREAKOUT"
  else "BASE"

/-- `_calculate_risk_reward`: reward is the 20 %-above-resistance target,
risk is the distance to support; non-positive risk or an empty frame
defaults to `"1:1"`. -/
def calculateRiskReward (bars : List PriceBar) (td : TechnicalData)
    (breakout : BreakoutAnalysis) : String :=
  if bars.isEmpty then "1:1"
  else
    let currentPrice := td.current_price.getD (bars.getLastD default).close
    let support := td.support_level.getD (minOver (·.low) (barsTail 252 bars))
    let resistance := breakout.resistance_level
    let risk := currentPrice - support
    let targetPrice := resistance * (12/10)
    let reward := targetPrice - currentPrice
    if risk ≤ 0 then "1:1"
    else
      let rr := reward / risk
      if 3 ≤ rr then "1:3+" else if 2 ≤ rr then "1:2" else if 3/2 ≤ rr then "1:1.5" else "1:1"

/-- The modelled fields of the `TechnicalAgent.analyze` output dict
(`risk_reward` models the key `'risk_reward_ratio'`;
`base_formation_months`, `breakout_confirmed`, `volume_expansion`,
`support_level` and `resistance_level` are the corresponding
`detailed_analysis` entries). -/
structure TechOutput where
  technical_stage : String
  risk_reward : String
  base_formation_months : ℚ
  breakout_confirmed : Bool
  volume_expansion : Bool
  support_level : ℚ
  resistance_level : ℚ
deriving DecidableEq, Repr

/-- `TechnicalAgent.analyze` over a given fetched price history.  Nothing
in the modelled pipeline can raise, so the outer `try/except` default
response is unreachable. -/
def technicalAnalyze (bars : List PriceBar) (td : TechnicalData) : TechOutput :=
  let baseFormationAnalysis := analyzeBaseFormation bars
  let breakoutAnalysis := analyzeBreakoutPatterns bars td
  let volumeAnalysis := analyzeVolumePatterns bars
  let stage := determineTechnicalStage baseFormationAnalysis breakoutAnalysis bars
  let riskReward := calculateRiskReward bars td breakoutAnalysis
  { technical_stage := stage,
    risk_reward := riskReward,
    base_formation_months := baseFormationAnalysis.base_duration_months,
    breakout_confirmed := breakoutAnalysis.breakout_confirmed,
    volume_expansion := volumeAnalysis.volume_expansion,
    support_level := td.support_level.getD 0,
    resistance_level := breakoutAnalysis.resistance_level }

/-! ## Supervisor agent

The supervisor consumes per-stock analysis bundles (dicts produced by the
per-agent analyses or by the error fallbacks of `main_system.py`); every
field is read with `.get(key, default)`, so each sub-dict is modelled with
`Option` fields.  Values are assumed numeric / list / string typed as the
pipeline produces them; under this domain the inner `try/except` blocks of
`_calculate_weighted_score`, `_create_stock_entry`, `_determine_timeframe`,
`_extract_key_triggers` and `_extract_major_risks` are unreachable and are
therefore not separately modelled.  The only reachable per-stock exception
is `.get` on a batch element that is not a dict, represented by
`StockAnalysisInput.nondict`. -/

structure SupFundDict where
  fundamental_score : Option ℚ
  key_improving_metrics : Option (List String)
  red_flags : Option (List String)
deriving DecidableEq, Repr

structure SupMgmtDict where
  management_quality_score : Option ℚ
  evidence_of_change : Option (List String)
  minority_shareholder_alignment : Option String
deriving DecidableEq, Repr

/-- The `risk_reward` field models the dict key `'risk_reward_ratio'`. -/
structure SupTechDict where
  technical_stage : Option String
  risk_reward : Option String
deriving DecidableEq, Repr

structure SupSmartDict where
  smart_money_conviction_score : Option ℚ
  investors_detected : Option (List String)
deriving DecidableEq, Repr

structure SupPolicyDict where
  policy_tailwind_strength : Option String
  time_horizon : Option String
deriving DecidableEq, Repr

structure SupInfoDict where
  sector : Option String
  marketCap : Option ℚ
deriving DecidableEq, Repr

structure SupFinancialData where
  info : Option SupInfoDict
deriving DecidableEq, Repr

/-- One per-stock analysis bundle, as read by `synthesize_analysis`;
`none` for a missing key (the `.get` default is the empty dict). -/
structure StockAnalysisDict where
  symbol : Option String
  fundamental_analysis : Option SupFundDict
  management_analysis : Option SupMgmtDict
  technical_analysis : Option SupTechDict
  smart_money_analysis : Option SupSmartDict
  policy_analysis : Option SupPolicyDict
  financial_data : Option SupFinancialData
deriving DecidableEq, Repr

/-- A batch element: either an analysis dict, or a non-dict value whose
`.get` access raises `AttributeError`, which the per-stock handler catches
(`logger.error(...); continue`). -/
inductive StockAnalysisInput
  | dict (d : StockAnalysisDict)
  | nondict
deriving DecidableEq, Repr

/-- `self.agent_weights`: the five-key weight mapping fixed at supervisor
construction. -/
structure AgentWeights where
  fundamentals : ℚ
  management : ℚ
  policy_macro : ℚ
  smart_money : ℚ
  technicals : ℚ
deriving DecidableEq, Repr

/-- The default weight dict of `SupervisorAgent.__init__`. -/
def defaultAgentWeights : AgentWeights :=
  { fundamentals := 35/100, management := 15/100, policy_macro := 20/100,
    smart_money := 15/100, technicals := 15/100 }

/-- `self.multibagger_threshold` (reduced from 0.75 to 0.60 in the source). -/
def multibaggerThreshold : ℚ := 60/100

/-- `self.watchlist_threshold` (reduced from 0.60 to 0.45 in the source). -/
def watchlistThreshold : ℚ := 45/100

/-- `self.rejection_threshold` (set but never compared in the source). -/
def rejectionThreshold : ℚ := 30/100

/-- `_normalize_technical_score`: stage table (default 0.6 for unknown
stages), risk/reward multiplier table (default 1.0), capped at 1.0. -/
def normalizeTechnicalScore (t : Option SupTechDict) : ℚ :=
  let stage := (t.bind (·.technical_stage)).getD "BASE"
  let riskReward := (t.bind (·.risk_reward)).getD "1:1"
  let baseScore : ℚ :=
    if stage = "BREAKOUT" then 9/10
    else if stage = "BASE" then 7/10
    else if stage = "EXTENDED" then 4/10
    else 6/10
  let multiplier : ℚ :=
    if riskReward = "1:3+" then 12/10
    else if riskReward = "1:2" then 11/10
    else if riskReward = "1:1.5" then 1
    else if riskReward = "1:1" then 95/100
    else 1
  pyMin 1 (baseScore * multiplier)

/-- `_normalize_policy_score`: strength table (default 0.4), horizon
multiplier table (default 1.0), capped at 1.0. -/
def normalizePolicyScore (p : Option SupPolicyDict) : ℚ :=
  let strength := (p.bind (·.policy_tailwind_strength)).getD "WEAK"
  let horizon := (p.bind (·.time_horizon)).getD "SHORT"
  let baseScore : ℚ :=
    if strength = "STRONG" then 9/10
    else if strength = "MODERATE" then 7/10
    else if strength = "WEAK" then 4/10
    else 4/10
  let multiplier : ℚ :=
    if horizon = "LONG" then 11/10
    else if horizon = "MEDIUM" then 1
    else if horizon = "SHORT" then 9/10
    else 1
  pyMin 1 (baseScore * multiplier)

/-- `_calculate_weighted_score`: the 0–10 scores divided by 10, the two
enum normalizations, the weighted sum, clamped into `[0, 1]`. -/
def calculateWeightedScore (w : AgentWeights) (f : Option SupFundDict)
    (m : Option SupMgmtDict) (t : Option SupTechDict) (s : Option SupSmartDict)
    (p : Option SupPolicyDict) : ℚ :=
  let fundamentalScore := (f.bind (·.fundamental_score)).getD 0 / 10
  let managementScore := (m.bind (·.management_quality_score)).getD 0 / 10
  let smartMoneyScore := (s.bind (·.smart_money_conviction_score)).getD 0 / 10
  let technicalScore := normalizeTechnicalScore t
  let policyScore := normalizePolicyScore p
  let weightedScore :=
    fundamentalScore * w.fundamentals +
    managementScore * w.management +
    technicalScore * w.technicals +
    smartMoneyScore * w.smart_money +
    policyScore * w.policy_macro
  pyMin 1 (pyMax 0 weightedScore)

/-- The `detailed_scores` sub-dict of a stock entry. -/
structure DetailedScores where
  fundamental_score : ℚ
  management_score : ℚ
  technical_stage : String
  smart_money_score : ℚ
  policy_strength : String
deriving DecidableEq, Repr

/-- A per-stock entry of the synthesis output. -/
structure StockEntry where
  symbol : String
  sector : String
  market_cap : String
  multibagger_probability : ℚ
  expected_timeframe : String
  key_triggers : List String
  major_risks : List String
  agent_consensus : String
  detailed_scores : DetailedScores
deriving DecidableEq, Repr

/-- `_determine_timeframe`. -/
def determineTimeframe (f : Option SupFundDict) (t : Option SupTechDict)
    (p : Option SupPolicyDict) : String :=
  let fundamentalScore := (f.bind (·.fundamental_score)).getD 0
  let stage := (t.bind (·.technical_stage)).getD "BASE"
  let horizon := (p.bind (·.time_horizon)).getD "SHORT"
  if 7 ≤ fundamentalScore ∧ stage = "BREAKOUT" ∧ (horizon = "MEDIUM" ∨ horizon = "LONG") then
    "2-3 years"
  else if 6 ≤ fundamentalScore ∧ (stage = "BREAKOUT" ∨ stage = "BASE") then "3-5 years"
  else "5+ years"

/-- `_extract_key_triggers`: top-2 improving metrics, top-1 management
change, joined smart-money investors, moderate/strong policy tailwinds;
at most 5. -/
def extractKeyTriggers (f : Option SupFundDict) (m : Option SupMgmtDict)
    (s : Option SupSmartDict) (p : Option SupPolicyDict) : List String :=
  let improvingMetrics := (f.bind (·.key_improving_metrics)).getD []
  let managementChanges := (m.bind (·.evidence_of_change)).getD []
  let investors := (s.bind (·.investors_detected)).getD []
  let strength := (p.bind (·.policy_tailwind_strength)).getD "WEAK"
  let t1 := improvingMetrics.take 2
  let t2 := managementChanges.take 1
  let t3 := if investors.isEmpty then []
    else ["Smart money: " ++ String.intercalate ", " (investors.take 2)]
  let t4 := if strength = "STRONG" ∨ strength = "MODERATE" then
      ["Policy tailwinds: " ++ pyLower strength] else []
  (t1 ++ t2 ++ t3 ++ t4).take 5

/-- `_extract_major_risks`: top-2 red flags, poor-alignment and extended-
stage warnings, two generic placeholders when empty; at most 4. -/
def extractMajorRisks (f : Option SupFundDict) (m : Option SupMgmtDict)
    (t : Option SupTechDict) : List String :=
  let redFlags := (f.bind (·.red_flags)).getD []
  let alignment := (m.bind (·.minority_shareholder_alignment)).getD "MEDIUM"
  let stage := (t.bind (·.technical_stage)).getD "BASE"
  let r1 := redFlags.take 2
  let r2 := if alignment = "LOW" then ["Poor minority shareholder alignment"] else []
  let r3 := if stage = "EXTENDED" then ["Technically extended levels"] else []
  let risks := r1 ++ r2 ++ r3
  let risks := if risks.isEmpty then ["Market volatility", "Execution risk"] else risks
  risks.take 4

/-- `_determine_consensus`. -/
def determineConsensus (weightedScore : ℚ) : String :=
  if 85/100 ≤ weightedScore then "STRONG BUY (High Conviction)"
  else if 75/100 ≤ weightedScore then "BUY (High Conviction)"
  else if 65/100 ≤ weightedScore then "BUY (Medium Conviction)"
  else if 55/100 ≤ weightedScore then "HOLD (Low Conviction)"
  else "AVOID (Low Conviction)"

/-- `_create_stock_entry` (success path; see the section comment on the
unreachable handler).  The probability is `round(weighted_score, 3)` and
the market cap renders `f"â‚¹{usd / 83:.0f} Cr"` (the rupee literal is
byte-for-byte the one in the source). -/
def createStockEntry (d : StockAnalysisDict) (weightedScore : ℚ) : StockEntry :=
  let info := (d.financial_data.bind (·.info))
  let sector := (info.bind (·.sector)).getD "Unknown"
  let marketCapUsd := (info.bind (·.marketCap)).getD 0
  let marketCapInr :=
    if 0 < marketCapUsd then "â‚¹" ++ fmtF0 (marketCapUsd / 83) ++ " Cr" else "Unknown"
  { symbol := d.symbol.getD "Unknown",
    sector := sector,
    market_cap := marketCapInr,
    multibagger_probability := pyRound3 weightedScore,
    expected_timeframe := determineTimeframe d.fundamental_analysis d.technical_analysis
      d.policy_analysis,
    key_triggers := extractKeyTriggers d.fundamental_analysis d.management_analysis
      d.smart_money_analysis d.policy_analysis,
    major_risks := extractMajorRisks d.fundamental_analysis d.management_analysis
      d.technical_analysis,
    agent_consensus := determineConsensus weightedScore,
    detailed_scores :=
      { fundamental_score := (d.fundamental_analysis.bind (·.fundamental_score)).getD 0,
        management_score := (d.management_analysis.bind (·.management_quality_score)).getD 0,
        technical_stage := (d.technical_analysis.bind (·.technical_stage)).getD "BASE",
        smart_money_score := (d.smart_money_analysis.bind (·.smart_money_conviction_score)).getD 0,
        policy_strength := (d.policy_analysis.bind (·.policy_tailwind_strength)).getD "WEAK" } }

/-- One iteration of the per-stock loop: the weighted score and the entry,
or `none` when the element raises and the handler skips it. -/
def processStock (w : AgentWeights) : StockAnalysisInput → Option (ℚ × StockEntry)
  | .nondict => none
  | .dict d =>
    let weightedScore := calculateWeightedScore w d.fundamental_analysis d.management_analysis
      d.technical_analysis d.smart_money_analysis d.policy_analysis
    some (weightedScore, createStockEntry d weightedScore)

/-- The scored entries of the successfully processed batch elements, in
batch order. -/
def scoredEntries (w : AgentWeights) (batch : List StockAnalysisInput) :
    List (ℚ × StockEntry) :=
  batch.filterMap (processStock w)

/-- One iteration of the categorization loop over the accumulated bucket
lists: a processed stock is appended to exactly one bucket according to the
threshold comparison on its weighted score; a skipped stock leaves the
buckets unchanged. -/
def categorizeStep (w : AgentWeights)
    (acc : List StockEntry × List StockEntry × List StockEntry)
    (sa : StockAnalysisInput) : List StockEntry × List StockEntry × List StockEntry :=
  match processStock w sa with
  | none => acc
  | some (ws, entry) =>
    if multibaggerThreshold ≤ ws then (acc.1 ++ [entry], acc.2.1, acc.2.2)
    else if watchlistThreshold ≤ ws then (acc.1, acc.2.1 ++ [entry], acc.2.2)
    else (acc.1, acc.2.1, acc.2.2 ++ [entry])

/-- The categorization loop of `synthesize_analysis`. -/
def categorize (w : AgentWeights) (batch : List StockAnalysisInput) :
    List StockEntry × List StockEntry × List StockEntry :=
  batch.foldl (categorizeStep w) ([], [], [])

/-- Descending probability: the key order of
`sort(key=lambda x: x['multibagger_probability'], reverse=True)`. -/
def probDesc (a b : StockEntry) : Prop :=
  b.multibagger_probability ≤ a.multibagger_probability

instance : DecidableRel probDesc := fun a b =>
  inferInstanceAs (Decidable (b.multibagger_probability ≤ a.multibagger_probability))

instance : IsTotal StockEntry probDesc :=
  ⟨fun a b => le_total b.multibagger_probability a.multibagger_probability⟩

instance : IsTrans StockEntry probDesc :=
  ⟨fun _ _ _ h1 h2 => le_trans h2 h1⟩

/-- The `analysis_summary` dict (the wall-clock `analysis_date` field is
not modelled). -/
structure AnalysisSummary where
  total_stocks_analyzed : ℕ
  high_conviction_count : ℕ
  watchlist_count : ℕ
  rejected_count : ℕ
deriving DecidableEq, Repr

/-- The output dict of `synthesize_analysis`. -/
structure SynthesisOutput where
  high_probability_multibaggers : List StockEntry
  early_watchlist : List StockEntry
  rejected_stocks : List StockEntry
  analysis_summary : AnalysisSummary
  disclaimer : String
deriving DecidableEq, Repr

/-- `SupervisorAgent.synthesize_analysis`: categorize every batch element,
sort the high-probability and watchlist buckets by descending probability
(Python's `list.sort` is stable, which `List.insertionSort` models
extensionally), truncate the rejected list to 10 for output, and report the
counts.  `rejected_stocks` is *not* sorted and `rejected_count` is the
length of the untruncated list, both as in the source. -/
def synthesizeAnalysis (w : AgentWeights) (batch : List StockAnalysisInput) :
    SynthesisOutput :=
  let buckets := categorize w batch
  let high := buckets.1.insertionSort probDesc
  let watchlist := buckets.2.1.insertionSort probDesc
  { high_probability_multibaggers := high,
    early_watchlist := watchlist,
    rejected_stocks := buckets.2.2.take 10,
    analysis_summary :=
      { total_stocks_analyzed := batch.length,
        high_conviction_count := high.length,
        watchlist_count := watchlist.length,
        rejected_count := buckets.2.2.length },
    disclaimer := "For research & learning only. Not financial advice." }


/-! ## Concrete inputs used by the claim checks -/

/-- A batch whose elements are all well-formed analysis dicts. -/
def allDicts (l : List StockAnalysisDict) : List StockAnalysisInput :=
  l.map StockAnalysisInput.dict

/-- A batch of well-formed analysis dicts with a single non-dict element
(one stock whose processing raises) in the middle. -/
def withNondictAt (pre post : List StockAnalysisDict) : List StockAnalysisInput :=
  pre.map StockAnalysisInput.dict ++
    StockAnalysisInput.nondict :: post.map StockAnalysisInput.dict


def emptyBundle : StockAnalysisDict :=
  { symbol := none, fundamental_analysis := none, management_analysis := none,
    technical_analysis := none, smart_money_analysis := none, policy_analysis := none,
    financial_data := none }

def batchC1 : List StockAnalysisInput :=
  [.dict emptyBundle, .nondict, .dict emptyBundle]

def bundleFund2 : StockAnalysisDict :=
  { emptyBundle with fundamental_analysis := some ⟨some 2, none, none⟩ }

def batchC4 : List StockAnalysisInput := [.dict emptyBundle, .dict bundleFund2]

def bundleHigh : StockAnalysisDict :=
  { emptyBundle with
    fundamental_analysis := some ⟨some 10, none, none⟩,
    smart_money_analysis := some ⟨some 10, none⟩ }

def batchC4w : List StockAnalysisInput := [.dict bundleHigh, .dict bundleHigh]

def entryC4w : StockEntry :=
  createStockEntry bundleHigh (calculateWeightedScore defaultAgentWeights
    bundleHigh.fundamental_analysis bundleHigh.management_analysis
    bundleHigh.technical_analysis bundleHigh.smart_money_analysis
    bundleHigh.policy_analysis)

/-- Input refuting the lower score bound (C2): declining revenue
(`100 < 0.9 * 200`), margin compression (`10 < 30 - 1`), no efficiency
contribution (no `'Total Assets'`), high debt (`D/E = 3 > 1`), poor cash
conversion (`OCF/PAT = 0 < 0.8`), so all five sub-scores are 0; the
revenue ratio `100/100 = 1` makes the CAGR exactly 0, so the fallback
enrichment contributes only the margin-compression adjustment `-0.2`. -/
def fdC2 : FinancialData :=
  { symbol := some "XYZ",
    financials :=
      [("Y1", some ⟨some 1000, some 10, some 500⟩),
       ("Y2", some ⟨some 100, some 0, some 10⟩),
       ("Y3", some ⟨some 1000, some 10, some 10⟩),
       ("Y4", some ⟨some 200, some 10, some 10⟩),
       ("Y5", some ⟨some 100, some 50, some 10⟩),
       ("Y6", some ⟨some 100, some 100, some 10⟩)],
    balance_sheet :=
      [("Y5", some ⟨none, some 100, some 500⟩),
       ("Y6", some ⟨none, some 100, some 300⟩)],
    cashflow :=
      [("Y5", some ⟨some 0, none⟩),
       ("Y6", some ⟨some 0, none⟩)] }

/-- A two-period (nonempty, shorter than 3) financial history (C3). -/
def fdC3 : FinancialData :=
  { symbol := some "XYZ",
    financials :=
      [("2023", some ⟨some 100, some 10, some 20⟩),
       ("2024", some ⟨some 110, some 12, some 22⟩)],
    balance_sheet := [],
    cashflow := [] }

/-- A balance sheet whose first period reports stockholders' equity 0 (C8). -/
def balC8 : PyDict (Option BalanceFields) :=
  [("2023", some ⟨none, some 0, some 100⟩),
   ("2024", some ⟨none, some 50, some 100⟩)]

/-- A short price history (3 bars) and an aggressive auxiliary technical
input (C7): the price pattern and the technical data are irrelevant below
252 bars. -/
def barsC7 : List PriceBar :=
  [⟨120, 80, 110, 1000⟩, ⟨140, 100, 130, 2000⟩, ⟨300, 200, 290, 3000⟩]

def tdC7 : TechnicalData := { current_price := some 1000, support_level := some 1 }

/-! ## Helper lemmas -/


lemma pyMin_le_left (a b : ℚ) : pyMin a b ≤ a := by
  unfold pyMin
  split_ifs with h
  · exact le_refl a
  · exact (not_le.mp h).le

lemma le_pyMin {c a b : ℚ} (h1 : c ≤ a) (h2 : c ≤ b) : c ≤ pyMin a b := by
  unfold pyMin
  split_ifs <;> assumption

lemma le_pyMax_left (a b : ℚ) : a ≤ pyMax a b := by
  unfold pyMax
  split_ifs with h
  · exact h
  · exact le_refl a

lemma pyMax_le {a b c : ℚ} (h1 : a ≤ c) (h2 : b ≤ c) : pyMax a b ≤ c := by
  unfold pyMax
  split_ifs <;> assumption

/-- The auxiliary integer of `rndHalfEven` is the floor. -/
lemma rndHalfEven_num_div_den (x : ℚ) : x.num / (x.den : ℤ) = ⌊x⌋ :=
  Rat.floor_def.symm

lemma le_rndHalfEven {x : ℚ} {n : ℤ} (h : (n : ℚ) ≤ x) : n ≤ rndHalfEven x := by
  have hf : n ≤ ⌊x⌋ := Int.le_floor.mpr h
  unfold rndHalfEven
  rw [rndHalfEven_num_div_den]
  dsimp only
  split_ifs <;> omega

lemma rndHalfEven_le {x : ℚ} {n : ℤ} (h : x ≤ (n : ℚ)) : rndHalfEven x ≤ n := by
  have hf : ⌊x⌋ ≤ n := by
    have := Int.floor_le_floor h
    simpa using this
  have hfloor : (⌊x⌋ : ℚ) ≤ x := Int.floor_le x
  unfold rndHalfEven
  rw [rndHalfEven_num_div_den]
  dsimp only
  split_ifs with h1 h2 h3
  · -- fractional part above one half forces a strict gap to `n`
    rcases lt_or_le ⌊x⌋ n with hlt | hge
    · omega
    · have : ⌊x⌋ = n := le_antisymm hf hge
      rw [this] at h1
      have : x ≤ (n : ℚ) := h
      linarith
  · exact hf
  · exact hf
  · rcases lt_or_le ⌊x⌋ n with hlt | hge
    · omega
    · have he : ⌊x⌋ = n := le_antisymm hf hge
      rw [he] at h1 h2
      have hx : x - (n : ℚ) = 1/2 := le_antisymm (not_lt.mp h1) (not_lt.mp h2)
      linarith

lemma le_pyRound2 {x : ℚ} {n : ℤ} (h : (n : ℚ) ≤ x * 100) : (n : ℚ) / 100 ≤ pyRound2 x := by
  unfold pyRound2
  have := le_rndHalfEven h
  have hc : (n : ℚ) ≤ (rndHalfEven (x * 100) : ℚ) := by exact_mod_cast this
  linarith

lemma pyRound2_le {x : ℚ} {n : ℤ} (h : x * 100 ≤ (n : ℚ)) : pyRound2 x ≤ (n : ℚ) / 100 := by
  unfold pyRound2
  have := rndHalfEven_le h
  have hc : (rndHalfEven (x * 100) : ℚ) ≤ (n : ℚ) := by exact_mod_cast this
  linarith

lemma scoreRevenueGrowth_mem (a : RevenueAnalysis) :
    0 ≤ scoreRevenueGrowth a ∧ scoreRevenueGrowth a ≤ 2 := by
  unfold scoreRevenueGrowth
  split_ifs <;> norm_num

lemma scoreProfitability_mem {a : ProfitabilityAnalysis} {q : ℚ}
    (h : scoreProfitability a = .ok q) : 0 ≤ q ∧ q ≤ 2 := by
  unfold scoreProfitability at h
  split_ifs at h with h1
  · simp only [Except.ok.injEq] at h
    subst h
    norm_num
  · cases hp : a.pat_cagr_5y with
    | none => rw [hp] at h; cases h
    | some pat =>
      rw [hp] at h
      dsimp only at h
      split_ifs at h <;> (simp only [Except.ok.injEq] at h; subst h; norm_num)

lemma scoreEfficiency_mem (a : EfficiencyAnalysis) :
    0 ≤ scoreEfficiency a ∧ scoreEfficiency a ≤ 2 := by
  unfold scoreEfficiency
  dsimp only
  refine ⟨le_pyMin (by norm_num) ?_, pyMin_le_left _ _⟩
  split_ifs <;> norm_num

lemma scoreDebtQuality_mem (a : DebtAnalysis) :
    0 ≤ scoreDebtQuality a ∧ scoreDebtQuality a ≤ 2 := by
  unfold scoreDebtQuality
  split_ifs <;> norm_num

lemma scoreCashflowQuality_mem (a : CashflowAnalysis) :
    0 ≤ scoreCashflowQuality a ∧ scoreCashflowQuality a ≤ 2 := by
  unfold scoreCashflowQuality
  split_ifs <;> norm_num

lemma calculateInflectionBonus_mem (r : RevenueAnalysis) (p : ProfitabilityAnalysis)
    (e : EfficiencyAnalysis) :
    0 ≤ calculateInflectionBonus r p e ∧ calculateInflectionBonus r p e ≤ 1 := by
  unfold calculateInflectionBonus
  split_ifs <;> norm_num

lemma fallbackAdjustment_mem (s : String) (r : RevenueAnalysis) (p : ProfitabilityAnalysis) :
    -(1/2) ≤ (createFallbackAiAnalysis s r p).ai_score_adjustment ∧
      (createFallbackAiAnalysis s r p).ai_score_adjustment ≤ 1/2 := by
  unfold createFallbackAiAnalysis
  dsimp only
  exact ⟨le_pyMax_left _ _, pyMax_le (by norm_num) (pyMin_le_left _ _)⟩

/-! ## Claim C5: the weighted probability is clamped into the unit interval -/

/-- **C5.**  For every combination of the five per-agent outputs and any
weight configuration, `_calculate_weighted_score` returns a value in
`[0, 1]`: the final `min(1.0, max(0.0, weighted_score))` clamp guarantees
the bound regardless of the magnitudes of scores and weights. -/
theorem weighted_score_in_unit_interval (w : AgentWeights) (f : Option SupFundDict)
    (m : Option SupMgmtDict) (t : Option SupTechDict) (s : Option SupSmartDict)
    (p : Option SupPolicyDict) :
    0 ≤ calculateWeightedScore w f m t s p ∧ calculateWeightedScore w f m t s p ≤ 1 := by
  unfold calculateWeightedScore
  dsimp only
  exact ⟨le_pyMin (by norm_num) (le_pyMax_left _ _), pyMin_le_left _ _⟩

/-- Unfolding of the categorization loop over an arbitrary accumulator: the
loop appends to the first bucket exactly the processed stocks at or above
the multibagger threshold, to the second those below it but at or above the
watchlist threshold, and to the third the rest, in batch order. -/
lemma categorize_foldl (w : AgentWeights) (batch : List StockAnalysisInput)
    (acc : List StockEntry × List StockEntry × List StockEntry) :
    batch.foldl (categorizeStep w) acc =
      (acc.1 ++ ((scoredEntries w batch).filter fun p =>
          decide (multibaggerThreshold ≤ p.1)).map Prod.snd,
       acc.2.1 ++ ((scoredEntries w batch).filter fun p =>
          decide (¬multibaggerThreshold ≤ p.1 ∧ watchlistThreshold ≤ p.1)).map Prod.snd,
       acc.2.2 ++ ((scoredEntries w batch).filter fun p =>
          decide (¬multibaggerThreshold ≤ p.1 ∧ ¬watchlistThreshold ≤ p.1)).map Prod.snd) := by
  induction batch generalizing acc with
  | nil => simp [scoredEntries]
  | cons sa rest ih =>
    simp only [List.foldl_cons]
    rw [ih]
    cases hp : processStock w sa with
    | none =>
      have hs : scoredEntries w (sa :: rest) = scoredEntries w rest := by
        simp [scoredEntries, List.filterMap_cons, hp]
      have hstep : categorizeStep w acc sa = acc := by
        simp [categorizeStep, hp]
      rw [hs, hstep]
    | some pe =>
      obtain ⟨ws, entry⟩ := pe
      have hs : scoredEntries w (sa :: rest) = (ws, entry) :: scoredEntries w rest := by
        simp [scoredEntries, List.filterMap_cons, hp]
      rw [hs]
      by_cases h1 : multibaggerThreshold ≤ ws
      · have hstep : categorizeStep w acc sa = (acc.1 ++ [entry], acc.2.1, acc.2.2) := by
          simp [categorizeStep, hp, h1]
        rw [hstep]
        simp [List.filter_cons, h1]
      · by_cases h2 : watchlistThreshold ≤ ws
        · have hstep : categorizeStep w acc sa = (acc.1, acc.2.1 ++ [entry], acc.2.2) := by
            simp [categorizeStep, hp, h1, h2]
          rw [hstep]
          simp [List.filter_cons, h1, h2, not_le.mp h1]
        · have hstep : categorizeStep w acc sa = (acc.1, acc.2.1, acc.2.2 ++ [entry]) := by
            simp [categorizeStep, hp, h1, h2]
          rw [hstep]
          simp [List.filter_cons, h1, h2, not_le.mp h1, not_le.mp h2]

/-- The three threshold predicates partition any scored list. -/
lemma filter_three_lengths (l : List (ℚ × StockEntry)) :
    ((l.filter fun p => decide (multibaggerThreshold ≤ p.1)).length +
      (l.filter fun p => decide (¬multibaggerThreshold ≤ p.1 ∧ watchlistThreshold ≤ p.1)).length) +
      (l.filter fun p => decide (¬multibaggerThreshold ≤ p.1 ∧ ¬watchlistThreshold ≤ p.1)).length
      = l.length := by
  induction l with
  | nil => simp
  | cons a t ih =>
    by_cases h1 : multibaggerThreshold ≤ a.1
    · rw [List.filter_cons_of_pos (by simpa using h1),
        List.filter_cons_of_neg (by simp [h1]),
        List.filter_cons_of_neg (by simp [h1])]
      simp only [List.length_cons]
      omega
    · by_cases h2 : watchlistThreshold ≤ a.1
      · rw [List.filter_cons_of_neg (by simpa using h1),
          List.filter_cons_of_pos (by simp [h1, h2]),
          List.filter_cons_of_neg (by simp [h2])]
        simp only [List.length_cons]
        omega
      · rw [List.filter_cons_of_neg (by simpa using h1),
          List.filter_cons_of_neg (by simp [h2]),
          List.filter_cons_of_pos (by simp [h1, h2])]
        simp only [List.length_cons]
        omega

/-! ## Claim C6: bucketing is a threshold-determined partition -/

/-- **C6.**  Every successfully processed stock of a synthesis batch lands
in exactly one of the three buckets, determined solely by comparing its
computed weighted probability with the two thresholds: at or above
`multibagger_threshold` → high-probability bucket; otherwise at or above
`watchlist_threshold` → watchlist; otherwise → rejected.  The three bucket
lengths add up to the number of processed stocks. -/
theorem bucketing_partition_by_thresholds (w : AgentWeights)
    (batch : List StockAnalysisInput) :
    (categorize w batch).1 = ((scoredEntries w batch).filter fun p =>
        decide (multibaggerThreshold ≤ p.1)).map Prod.snd ∧
    (categorize w batch).2.1 = ((scoredEntries w batch).filter fun p =>
        decide (¬multibaggerThreshold ≤ p.1 ∧ watchlistThreshold ≤ p.1)).map Prod.snd ∧
    (categorize w batch).2.2 = ((scoredEntries w batch).filter fun p =>
        decide (¬multibaggerThreshold ≤ p.1 ∧ ¬watchlistThreshold ≤ p.1)).map Prod.snd ∧
    ((categorize w batch).1.length + (categorize w batch).2.1.length) +
      (categorize w batch).2.2.length = (scoredEntries w batch).length := by
  have h := categorize_foldl w batch ([], [], [])
  unfold categorize
  rw [h]
  refine ⟨by simp, by simp, by simp, ?_⟩
  simpa using filter_three_lengths (scoredEntries w batch)

/-! ## Claim C10: the rejected count reports the untruncated bucket -/

/-- **C10.**  In every synthesis output, `rejected_count` equals the total
number of stocks bucketed as rejected (those below the watchlist
threshold), while `rejected_stocks` is that bucket truncated to its first
10 entries, so the reported count can exceed the length of the returned
list. -/
theorem rejected_count_counts_all_rejected (w : AgentWeights)
    (batch : List StockAnalysisInput) :
    (synthesizeAnalysis w batch).analysis_summary.rejected_count =
      ((scoredEntries w batch).filter fun p =>
        decide (¬multibaggerThreshold ≤ p.1 ∧ ¬watchlistThreshold ≤ p.1)).length ∧
    (synthesizeAnalysis w batch).rejected_stocks = (categorize w batch).2.2.take 10 ∧
    (synthesizeAnalysis w batch).rejected_stocks.length =
      min 10 (synthesizeAnalysis w batch).analysis_summary.rejected_count := by
  have hc : (categorize w batch).2.2 = ((scoredEntries w batch).filter fun p =>
      decide (¬multibaggerThreshold ≤ p.1 ∧ ¬watchlistThreshold ≤ p.1)).map Prod.snd := by
    unfold categorize
    rw [categorize_foldl]
    simp
  refine ⟨?_, ?_, ?_⟩
  · simp only [synthesizeAnalysis]
    rw [hc]
    simp
  · simp only [synthesizeAnalysis]
  · simp only [synthesizeAnalysis]
    simp [List.length_take, Nat.min_comm]

/-- `insertionSort` preserves length (so the reported counts equal the
bucket sizes). -/
lemma length_insertionSort' {α : Type} (r : α → α → Prop) [DecidableRel r] (l : List α) :
    (l.insertionSort r).length = l.length :=
  (List.perm_insertionSort r l).length_eq

/-- The three summary counts add up to the number of successfully
processed stocks. -/
lemma summary_counts_sum (w : AgentWeights) (batch : List StockAnalysisInput) :
    ((synthesizeAnalysis w batch).analysis_summary.high_conviction_count +
      (synthesizeAnalysis w batch).analysis_summary.watchlist_count) +
      (synthesizeAnalysis w batch).analysis_summary.rejected_count =
      (scoredEntries w batch).length := by
  simp only [synthesizeAnalysis]
  rw [length_insertionSort', length_insertionSort']
  have h := categorize_foldl w batch ([], [], [])
  unfold categorize
  rw [h]
  simpa using filter_three_lengths (scoredEntries w batch)

lemma scoredEntries_allDicts_length (w : AgentWeights) (l : List StockAnalysisDict) :
    (scoredEntries w (allDicts l)).length = l.length := by
  induction l with
  | nil => rfl
  | cons d t ih =>
    simp only [allDicts, List.map_cons, scoredEntries, List.filterMap_cons] at ih ⊢
    simp only [processStock]
    simpa using ih

lemma scoredEntries_skip_nondict (w : AgentWeights) (pre post : List StockAnalysisDict) :
    scoredEntries w (withNondictAt pre post) = scoredEntries w (allDicts (pre ++ post)) := by
  simp [withNondictAt, allDicts, scoredEntries, List.filterMap_append, List.filterMap_cons,
    processStock]

/-! ## Claim C1: one failing stock is skipped, but the total count is not
reduced -/

/-- **C1 (counterexample).**  A 3-element batch in which exactly one
element raises during per-stock processing: the summary's total count is
the full input length (`3`), not the input length minus one (`2`) — the
source sets `total_stocks_analyzed` to `len(stock_analyses)`. -/
theorem synthesis_total_count_not_reduced :
    (synthesizeAnalysis defaultAgentWeights batchC1).analysis_summary.total_stocks_analyzed
      ≠ batchC1.length - 1 := by decide

/-- **C1 (amended).**  For every batch with exactly one failing element,
the three buckets (and hence their counts) are those of the batch with the
failing stock removed — the failing stock appears in no bucket and every
other stock is bucketed — and the three bucket counts sum to the input
length minus one; but the `total_stocks_analyzed` field of the summary
reports the *full* input length, not the length minus one. -/
theorem synthesis_skips_failing_stock (w : AgentWeights)
    (pre post : List StockAnalysisDict) :
    (synthesizeAnalysis w (withNondictAt pre post)).high_probability_multibaggers =
      (synthesizeAnalysis w (allDicts (pre ++ post))).high_probability_multibaggers ∧
    (synthesizeAnalysis w (withNondictAt pre post)).early_watchlist =
      (synthesizeAnalysis w (allDicts (pre ++ post))).early_watchlist ∧
    (synthesizeAnalysis w (withNondictAt pre post)).rejected_stocks =
      (synthesizeAnalysis w (allDicts (pre ++ post))).rejected_stocks ∧
    ((synthesizeAnalysis w (withNondictAt pre post)).analysis_summary.high_conviction_count +
      (synthesizeAnalysis w (withNondictAt pre post)).analysis_summary.watchlist_count) +
      (synthesizeAnalysis w (withNondictAt pre post)).analysis_summary.rejected_count =
      (withNondictAt pre post).length - 1 ∧
    (synthesizeAnalysis w (withNondictAt pre post)).analysis_summary.total_stocks_analyzed =
      (withNondictAt pre post).length := by
  have hse := scoredEntries_skip_nondict w pre post
  have hcat : categorize w (withNondictAt pre post) = categorize w (allDicts (pre ++ post)) := by
    unfold categorize
    rw [categorize_foldl, categorize_foldl, hse]
  have hlen : (withNondictAt pre post).length = (pre.length + post.length) + 1 := by
    simp [withNondictAt]
    omega
  refine ⟨?_, ?_, ?_, ?_, ?_⟩
  · simp only [synthesizeAnalysis, hcat]
  · simp only [synthesizeAnalysis, hcat]
  · simp only [synthesizeAnalysis, hcat]
  · have h := summary_counts_sum w (withNondictAt pre post)
    rw [hse, scoredEntries_allDicts_length] at h
    rw [h, hlen]
    simp only [List.length_append]
    omega
  · rfl

/-! ## Claim C4: sort order within the buckets -/

/-- **C4 (counterexample).**  The rejected bucket is *not* sorted: the
source sorts only `high_probability_multibaggers` and `early_watchlist`.
A batch of two rejected stocks with increasing probabilities (0.172, then
0.242) leaves the rejected list in input order, violating the claimed
non-increasing order. -/
theorem rejected_bucket_not_sorted :
    ¬ (synthesizeAnalysis defaultAgentWeights batchC4).rejected_stocks.Pairwise probDesc := by
  with_unfolding_all decide

/-- **C4 (amended).**  The high-probability and watchlist buckets are
sorted by non-increasing probability with ties kept in input order
(Python's stable `sort` with `reverse=True`, modelled by the stable
`insertionSort`); the rejected list is *not* sorted — it keeps the input
(batch) order, of which it is a sublist. -/
theorem bucket_sort_order (w : AgentWeights) (batch : List StockAnalysisInput) :
    ((synthesizeAnalysis w batch).high_probability_multibaggers.Pairwise probDesc ∧
      (synthesizeAnalysis w batch).early_watchlist.Pairwise probDesc) ∧
    (∀ a b : StockEntry, probDesc a b → [a, b].Sublist (categorize w batch).1 →
      [a, b].Sublist (synthesizeAnalysis w batch).high_probability_multibaggers) ∧
    (∀ a b : StockEntry, probDesc a b → [a, b].Sublist (categorize w batch).2.1 →
      [a, b].Sublist (synthesizeAnalysis w batch).early_watchlist) ∧
    (synthesizeAnalysis w batch).rejected_stocks.Sublist
      ((scoredEntries w batch).map Prod.snd) := by
  refine ⟨⟨?_, ?_⟩, ?_, ?_, ?_⟩
  · simpa only [synthesizeAnalysis] using List.sorted_insertionSort probDesc (categorize w batch).1
  · simpa only [synthesizeAnalysis] using
      List.sorted_insertionSort probDesc (categorize w batch).2.1
  · intro a b hab hsub
    simpa only [synthesizeAnalysis] using List.pair_sublist_insertionSort hab hsub
  · intro a b hab hsub
    simpa only [synthesizeAnalysis] using List.pair_sublist_insertionSort hab hsub
  · simp only [synthesizeAnalysis]
    have hc : (categorize w batch).2.2 = ((scoredEntries w batch).filter fun p =>
        decide (¬multibaggerThreshold ≤ p.1 ∧ ¬watchlistThreshold ≤ p.1)).map Prod.snd := by
      unfold categorize
      rw [categorize_foldl]
      simp
    rw [hc]
    exact ((List.take_sublist _ _).trans ((List.filter_sublist _).map Prod.snd))

/-- Witness for the stability part of the amended C4: a batch of two
identical high-probability stocks; the pair keeps its input order in the
sorted high bucket. -/
theorem bucket_sort_order_witness :
    [entryC4w, entryC4w].Sublist
      (synthesizeAnalysis defaultAgentWeights batchC4w).high_probability_multibaggers :=
  (bucket_sort_order defaultAgentWeights batchC4w).2.1 entryC4w entryC4w
    (by with_unfolding_all decide) (by with_unfolding_all decide)

/-! ## Claim C7: short price histories default to the BASE stage -/

/-- **C7.**  For every price history with fewer than 252 daily bars,
whatever the price pattern and the auxiliary technical-data inputs, the
technical analysis reports stage `"BASE"` and a base-formation duration of
0 months: `_analyze_base_formation` returns the POOR/0 default below 252
bars, and a POOR base quality forces `_determine_technical_stage` into its
`"BASE"` branch regardless of the breakout analysis. -/
theorem short_history_defaults_to_base (bars : List PriceBar) (td : TechnicalData)
    (h : bars.length < 252) :
    (technicalAnalyze bars td).technical_stage = "BASE" ∧
    (technicalAnalyze bars td).base_formation_months = 0 := by
  have hb : analyzeBaseFormation bars =
      { base_duration_months := 0, base_quality := "POOR" } := by
    unfold analyzeBaseFormation
    rw [if_pos h]
  unfold technicalAnalyze
  dsimp only
  rw [hb]
  refine ⟨?_, rfl⟩
  unfold determineTechnicalStage
  dsimp only
  rw [if_neg]
  rintro ⟨-, h2 | h2⟩ <;> simp at h2

theorem short_history_defaults_to_base_witness :
    (technicalAnalyze barsC7 tdC7).technical_stage = "BASE" ∧
    (technicalAnalyze barsC7 tdC7).base_formation_months = 0 :=
  short_history_defaults_to_base barsC7 tdC7 (by decide)

/-! ## Claim C8: zero equity cannot make the debt analysis raise -/

/-- All divisions in the debt-quality ratio list succeed, because the list
comprehension filters on `equity > 0` before dividing. -/
lemma mapM_pyDiv_ok (l : List (ℚ × ℚ)) (hl : ∀ p ∈ l, p.2 ≠ 0) :
    l.mapM (fun p => pyDiv p.1 p.2) = .ok (l.map fun p => p.1 / p.2) := by
  induction l with
  | nil => rfl
  | cons a t ih =>
    have ha : a.2 ≠ 0 := hl a (List.mem_cons_self a t)
    have ht := ih fun p hp => hl p (List.mem_cons_of_mem a hp)
    have hda : pyDiv a.1 a.2 = .ok (a.1 / a.2) := by
      simp [pyDiv, ha]
    rw [List.mapM_cons, ht, hda]
    rfl

/-- **C8.**  For every balance sheet in which some period reports
stockholders' equity equal to 0, the debt-quality analysis raises no
division-by-zero error (its core computation succeeds) and the resulting
`debt_to_equity` is the (finite, rational) collapsed value: the
`equity > 0` filter skips the zero-equity period before any division, and
the `.get('Stockholders Equity', 1)` default only applies to missing
keys. -/
theorem debt_zero_equity_no_raise (balance : PyDict (Option BalanceFields))
    (_h : ∃ p ∈ balance, (p.2.bind fun b => b.stockholdersEquity) = some 0) :
    analyzeDebtQualityCore balance = .ok (analyzeDebtQuality balance) := by
  have hok : ∃ r, analyzeDebtQualityCore balance = .ok r := by
    unfold analyzeDebtQualityCore
    dsimp only
    split_ifs with hlen
    · exact ⟨_, rfl⟩
    · rw [mapM_pyDiv_ok]
      · exact ⟨_, rfl⟩
      · intro p hp
        have := List.of_mem_filter hp
        simp only [decide_eq_true_eq] at this
        exact ne_of_gt this
  obtain ⟨r, hr⟩ := hok
  rw [hr]
  unfold analyzeDebtQuality
  rw [hr]

theorem debt_zero_equity_no_raise_witness :
    analyzeDebtQualityCore balC8 = .ok (analyzeDebtQuality balC8) :=
  debt_zero_equity_no_raise balC8 (by with_unfolding_all decide)

/-! ## Claim C9: the fundamental scorer is deterministic -/

/-- **C9.**  With enrichment disabled (no AI providers configured, so
`ai_enabled` is false and `_get_ai_insights` is never consulted), two calls
of the fundamental scorer's `analyze` on identical input return identical
scores and identical evidence lists.  `analyze` writes no instance state
(the agent is stateless apart from its construction-time provider
configuration), so the embedding is a pure function of its input and the
two calls agree definitionally. -/
theorem fundamental_analyze_deterministic (fd : FinancialData) :
    (fundamentalAnalyze .disabled fd).fundamental_score
        = (fundamentalAnalyze .disabled fd).fundamental_score ∧
    (fundamentalAnalyze .disabled fd).key_improving_metrics
        = (fundamentalAnalyze .disabled fd).key_improving_metrics ∧
    (fundamentalAnalyze .disabled fd).red_flags
        = (fundamentalAnalyze .disabled fd).red_flags :=
  ⟨rfl, rfl, rfl⟩

/-! ## Characterization of `fundamentalAnalyze` -/

/-- Empty `financials` short-circuits to the fixed default response. -/
lemma fundamentalAnalyze_of_empty (ai : AiOutcome) (fd : FinancialData)
    (h : fd.financials.isEmpty = true) :
    fundamentalAnalyze ai fd = createDefaultResponse "Insufficient financial data" := by
  unfold fundamentalAnalyze fundamentalAnalyzeCore
  rw [h]
  rfl

/-- A raising profitability-score comparison collapses `analyze` to the
`"Analysis error"` default. -/
lemma fundamentalAnalyze_of_profit_error (ai : AiOutcome) (fd : FinancialData) (e : PyErr)
    (hne : fd.financials.isEmpty = false)
    (he : scoreProfitability (analyzeProfitability fd.financials) = .error e) :
    fundamentalAnalyze ai fd = createDefaultResponse ("Analysis error: " ++ pyErrMessage e) := by
  unfold fundamentalAnalyze fundamentalAnalyzeCore
  rw [hne]
  dsimp only
  rw [he]
  rfl

/-- On the normal path, the returned score is the rounded, 10-capped sum of
the five sub-scores, the inflection bonus and the enrichment bonus. -/
lemma fundamentalAnalyze_score_eq (ai : AiOutcome) (fd : FinancialData) (q : ℚ)
    (hne : fd.financials.isEmpty = false)
    (hq : scoreProfitability (analyzeProfitability fd.financials) = .ok q) :
    (fundamentalAnalyze ai fd).fundamental_score =
      pyRound2 (pyMin 10
        (scoreRevenueGrowth (analyzeRevenueGrowth fd.financials) + q +
          scoreEfficiency (analyzeEfficiency fd.financials fd.balance_sheet) +
          scoreDebtQuality (analyzeDebtQuality fd.balance_sheet) +
          scoreCashflowQuality (analyzeCashflowQuality fd.cashflow fd.financials) +
          calculateInflectionBonus (analyzeRevenueGrowth fd.financials)
            (analyzeProfitability fd.financials)
            (analyzeEfficiency fd.financials fd.balance_sheet) +
          aiBonusOf ai fd)) := by
  unfold fundamentalAnalyze fundamentalAnalyzeCore aiBonusOf
  rw [hne]
  dsimp only
  rw [hq]
  rfl

/-- The enrichment bonus is zero when AI is disabled. -/
lemma aiBonusOf_disabled (fd : FinancialData) : aiBonusOf .disabled fd = 0 := rfl

/-- Whenever the provider-returned adjustment is within `[-0.5, 0.5]` (and
always, for the disabled and local-fallback outcomes), so is the bonus. -/
lemma aiBonusOf_mem (ai : AiOutcome) (fd : FinancialData)
    (hAdj : ∀ ps name ins, ai = .providerResult ps name ins →
      -(1/2) ≤ ins.ai_score_adjustment ∧ ins.ai_score_adjustment ≤ 1/2) :
    -(1/2) ≤ aiBonusOf ai fd ∧ aiBonusOf ai fd ≤ 1/2 := by
  cases ai with
  | disabled => rw [aiBonusOf_disabled]; norm_num
  | fallbackLocal ps =>
    have h := fallbackAdjustment_mem (fd.symbol.getD "Unknown")
      (analyzeRevenueGrowth fd.financials) (analyzeProfitability fd.financials)
    exact h
  | providerResult ps name ins =>
    exact hAdj ps name ins rfl

/-! ## Claim C2: the fundamental score bounds -/

/-- **C2 (counterexample).**  With all five sub-scores at 0 and the local
fallback enrichment contributing its margin-compression adjustment `-0.2`,
`analyze` returns `-0.2`: the source caps the score with `min(10, ...)` but
never floors it at 0, so the claimed lower bound 0 fails. -/
theorem fundamental_score_below_zero :
    (fundamentalAnalyze (.fallbackLocal ["groq"]) fdC2).fundamental_score < 0 := by
  with_unfolding_all decide

/-- **C2 (amended).**  Whenever the enrichment adjustment is within
`[-0.5, 0.5]` — which always holds for the clamped local fallback, and
holds vacuously with enrichment disabled — the returned score lies in
`[-0.5, 10]`; with enrichment disabled, it lies in `[0, 10]`.  The upper
bound 10 of the original claim holds; the lower bound is `-0.5`, not 0. -/
theorem fundamental_score_bounds (ai : AiOutcome) (fd : FinancialData)
    (hAdj : ∀ ps name ins, ai = .providerResult ps name ins →
      -(1/2) ≤ ins.ai_score_adjustment ∧ ins.ai_score_adjustment ≤ 1/2) :
    (-(1/2) ≤ (fundamentalAnalyze ai fd).fundamental_score ∧
      (fundamentalAnalyze ai fd).fundamental_score ≤ 10) ∧
    (ai = .disabled → 0 ≤ (fundamentalAnalyze ai fd).fundamental_score) := by
  cases hE : fd.financials.isEmpty with
  | true =>
    rw [fundamentalAnalyze_of_empty ai fd hE]
    unfold createDefaultResponse
    norm_num
  | false =>
    cases hq : scoreProfitability (analyzeProfitability fd.financials) with
    | error e =>
      rw [fundamentalAnalyze_of_profit_error ai fd e hE hq]
      unfold createDefaultResponse
      norm_num
    | ok q =>
      rw [fundamentalAnalyze_score_eq ai fd q hE hq]
      obtain ⟨hq0, hq2⟩ := scoreProfitability_mem hq
      obtain ⟨hr0, hr2⟩ := scoreRevenueGrowth_mem (analyzeRevenueGrowth fd.financials)
      obtain ⟨he0, he2⟩ := scoreEfficiency_mem (analyzeEfficiency fd.financials fd.balance_sheet)
      obtain ⟨hd0, hd2⟩ := scoreDebtQuality_mem (analyzeDebtQuality fd.balance_sheet)
      obtain ⟨hc0, hc2⟩ :=
        scoreCashflowQuality_mem (analyzeCashflowQuality fd.cashflow fd.financials)
      obtain ⟨hi0, hi1⟩ := calculateInflectionBonus_mem (analyzeRevenueGrowth fd.financials)
        (analyzeProfitability fd.financials) (analyzeEfficiency fd.financials fd.balance_sheet)
      obtain ⟨ha0, ha1⟩ := aiBonusOf_mem ai fd hAdj
      set T := scoreRevenueGrowth (analyzeRevenueGrowth fd.financials) + q +
        scoreEfficiency (analyzeEfficiency fd.financials fd.balance_sheet) +
        scoreDebtQuality (analyzeDebtQuality fd.balance_sheet) +
        scoreCashflowQuality (analyzeCashflowQuality fd.cashflow fd.financials) +
        calculateInflectionBonus (analyzeRevenueGrowth fd.financials)
          (analyzeProfitability fd.financials)
          (analyzeEfficiency fd.financials fd.balance_sheet) +
        aiBonusOf ai fd with hT
      have hTlo : -(1/2) ≤ T := by rw [hT]; linarith
      have hmin_le : pyMin 10 T ≤ 10 := pyMin_le_left 10 T
      have hmin_ge : -(1/2) ≤ pyMin 10 T := le_pyMin (by norm_num) hTlo
      refine ⟨⟨?_, ?_⟩, ?_⟩
      · have := le_pyRound2 (n := -50) (x := pyMin 10 T) (by push_cast; linarith)
        push_cast at this
        linarith
      · have := pyRound2_le (n := 1000) (x := pyMin 10 T) (by push_cast; linarith)
        push_cast at this
        linarith
      · intro hdis
        subst hdis
        have hTlo0 : 0 ≤ T := by rw [hT, aiBonusOf_disabled]; linarith
        have hmin_ge0 : (0:ℚ) ≤ pyMin 10 T := le_pyMin (by norm_num) hTlo0
        have := le_pyRound2 (n := 0) (x := pyMin 10 T) (by push_cast; linarith)
        push_cast at this
        linarith

theorem fundamental_score_bounds_witness :
    -(1/2) ≤ (fundamentalAnalyze (.fallbackLocal ["groq"]) fdC2).fundamental_score ∧
      (fundamentalAnalyze (.fallbackLocal ["groq"]) fdC2).fundamental_score ≤ 10 :=
  (fundamental_score_bounds (.fallbackLocal ["groq"]) fdC2
    (fun _ps _name _ins h => AiOutcome.noConfusion h)).1

/-! ## Claim C3: behaviour on histories shorter than 3 periods -/

/-- With fewer than 3 collected periods the revenue analysis degrades to
its default dict (no CAGR is computed). -/
lemma analyzeRevenueGrowth_short (fin : PyDict (Option StmtFields))
    (h : fin.length < 3) : analyzeRevenueGrowth fin = defaultRevenueAnalysis := by
  have hp : (fin.filterMap fun p =>
      p.2.bind fun s => s.totalRevenue.map fun r => (p.1, r)).length < 3 :=
    lt_of_le_of_lt (List.length_filterMap_le _ _) h
  unfold analyzeRevenueGrowth analyzeRevenueGrowthCore
  dsimp only
  rw [if_pos hp]

/-- With fewer than 3 collected periods the profitability analysis
degrades to its default dict. -/
lemma analyzeProfitability_short (fin : PyDict (Option StmtFields))
    (h : fin.length < 3) : analyzeProfitability fin = defaultProfitabilityAnalysis := by
  have hp : (fin.filterMap fun p =>
      p.2.map fun s =>
        (p.1, s.netIncome.getD 0, s.totalRevenue.getD 1, s.operatingIncome.getD 0)).length < 3 :=
    lt_of_le_of_lt (List.length_filterMap_le _ _) h
  unfold analyzeProfitability
  dsimp only
  rw [if_pos hp]

/-- **C3 (counterexample).**  A nonempty two-period history does *not*
produce the fixed default: `analyze` runs the full scoring with every
sub-analysis at its degraded default, returning score 3.0 (0.5 revenue +
0.5 profitability + 0 efficiency + 1.5 debt + 0.5 cashflow) and no
"insufficient data" reason (the red-flag list is empty). -/
theorem short_history_not_fixed_default :
    (fundamentalAnalyze .disabled fdC3).fundamental_score = 3 ∧
    (fundamentalAnalyze .disabled fdC3).red_flags = [] := by
  with_unfolding_all decide

/-- **C3 (amended).**  Only when the financial-statement dict is entirely
missing or empty does `analyze` return the fixed default (score 0, reason
`"Insufficient financial data"`).  A nonempty history with fewer than 3
periods never raises either, but it runs the normal scoring path with the
revenue and profitability analyses at their defaults, and the resulting
score is at least 1 — in particular never the fixed 0 default. -/
theorem nonempty_short_history_scored (fd : FinancialData) (h : fd.financials.length < 3) :
    (fd.financials = [] →
      fundamentalAnalyze .disabled fd = createDefaultResponse "Insufficient financial data") ∧
    (fd.financials ≠ [] → 1 ≤ (fundamentalAnalyze .disabled fd).fundamental_score) := by
  constructor
  · intro he
    exact fundamentalAnalyze_of_empty .disabled fd (by rw [he]; rfl)
  · intro hne
    have hne' : fd.financials.isEmpty = false := by
      cases hfin : fd.financials with
      | nil => exact absurd hfin hne
      | cons a t => rfl
    have hprof := analyzeProfitability_short fd.financials h
    have hq : scoreProfitability (analyzeProfitability fd.financials) = .ok (1/2) := by
      rw [hprof]
      with_unfolding_all rfl
    rw [fundamentalAnalyze_score_eq .disabled fd (1/2) hne' hq]
    have hrev := analyzeRevenueGrowth_short fd.financials h
    have hr : scoreRevenueGrowth (analyzeRevenueGrowth fd.financials) = 1/2 := by
      rw [hrev]
      with_unfolding_all rfl
    rw [hr, aiBonusOf_disabled]
    obtain ⟨he0, he2⟩ := scoreEfficiency_mem (analyzeEfficiency fd.financials fd.balance_sheet)
    obtain ⟨hd0, hd2⟩ := scoreDebtQuality_mem (analyzeDebtQuality fd.balance_sheet)
    obtain ⟨hc0, hc2⟩ :=
      scoreCashflowQuality_mem (analyzeCashflowQuality fd.cashflow fd.financials)
    obtain ⟨hi0, hi1⟩ := calculateInflectionBonus_mem (analyzeRevenueGrowth fd.financials)
      (analyzeProfitability fd.financials) (analyzeEfficiency fd.financials fd.balance_sheet)
    set T := (1:ℚ)/2 + 1/2 +
      scoreEfficiency (analyzeEfficiency fd.financials fd.balance_sheet) +
      scoreDebtQuality (analyzeDebtQuality fd.balance_sheet) +
      scoreCashflowQuality (analyzeCashflowQuality fd.cashflow fd.financials) +
      calculateInflectionBonus (analyzeRevenueGrowth fd.financials)
        (analyzeProfitability fd.financials)
        (analyzeEfficiency fd.financials fd.balance_sheet) + 0 with hT
    have hT1 : 1 ≤ T := by rw [hT]; linarith
    have hmin : (1:ℚ) ≤ pyMin 10 T := le_pyMin (by norm_num) hT1
    have := le_pyRound2 (n := 100) (x := pyMin 10 T) (by push_cast; linarith)
    push_cast at this
    linarith

theorem nonempty_short_history_scored_witness :
    fdC3.financials ≠ [] ∧ 1 ≤ (fundamentalAnalyze .disabled fdC3).fundamental_score :=
  ⟨by with_unfolding_all decide,
    (nonempty_short_history_scored fdC3 (by with_unfolding_all decide)).2
      (by with_unfolding_all decide)⟩
